import Mathlib

/-!
Verification development for the PyGuide centroiding and star-shape code
(src/python/Centroid.py and src/python/PyGuide/StarShape.py).

Conventions of the shallow embedding:
* Python floats are modelled as rationals (ℚ); pixel data, which the source
  forces to UInt16 before use, is modelled as integers (ℤ); counts as ℕ/ℤ.
* Fallible code is modelled with Except String: `Except.error msg` models a
  raised Python exception carrying `str(e) = msg`; catching an exception is
  modelled by matching on the Except value.
* External collaborators that are not part of the two source files
  (the radProf C kernel, ImUtil subframe/statistics helpers, the Constants
  module) are either taken as explicit parameters or modelled from the spec;
  each such definition carries a doc comment saying so.
* math.sqrt cannot be represented inside ℚ; result fields that the source
  fills with a square root are therefore embedded as the (exact, rational)
  radicand, with the field name carrying the suffix `Sq`.  The accompanying
  theorems state the square-root connection through Real.sqrt.
-/

namespace PyGuide

/-- Python 2 `round`: round half away from zero (`round(0.5) = 1`,
`round(-0.5) = -1`). -/
def pyRound (q : ℚ) : ℤ :=
  if 0 ≤ q then Int.floor (q + 1/2) else -Int.floor (-q + 1/2)

/-- Python `int()` applied to a float: truncation toward zero. -/
def pyTrunc (q : ℚ) : ℤ :=
  if 0 ≤ q then Int.floor q else -Int.floor (-q)

/-- Modelled from the spec: the coordinate convention of
PyGuide.Constants/ImUtil (both outside src/).  A single fixed offset
`pmi` (PosMinusIndex) relates pixel index to continuous position, applied
as a pure linear map, with the x position paired with the second (j) array
axis and y with the first (i) axis.  `xyPosFromIJPos` is ImUtil.xyPosFromIJPos. -/
def xyPosFromIJPos (pmi : ℚ) (ij : ℚ × ℚ) : ℚ × ℚ :=
  (ij.2 + pmi, ij.1 + pmi)

/-- Modelled from the spec: ImUtil.ijPosFromXYPos, inverse of `xyPosFromIJPos`. -/
def ijPosFromXYPos (pmi : ℚ) (xy : ℚ × ℚ) : ℚ × ℚ :=
  (xy.2 - pmi, xy.1 - pmi)

/-- Modelled from the spec: ImUtil.ijIndFromXYPos, the index of the pixel
whose center is nearest the given xy position (round to nearest pixel). -/
def ijIndFromXYPos (pmi : ℚ) (xy : ℚ × ℚ) : ℤ × ℤ :=
  (pyRound (xy.2 - pmi), pyRound (xy.1 - pmi))

/-- Centroid.py `_MinRad`: minimum search radius. -/
def MinRad : ℚ := 3

/-- Centroid.py `_OuterRadAdd`: amount added to rad to get outerRad. -/
def OuterRadAdd : ℚ := 10

/-- Centroid.py `_MaxIter`: maximum number of grid-walk iterations. -/
def MaxIter : ℕ := 40

/-- Centroid.py `CCDInfo`: info about the CCD.  `satLevel` is the saturation
level in ADU, `none` if unknown. -/
structure CCDInfo where
  bias : ℚ
  readNoise : ℚ
  ccdGain : ℚ
  satLevel : Option ℚ

/-- CCDInfo built as by `CCDInfo(bias, readNoise, ccdGain)` in Python, i.e.
with the default argument `satLevel = (2**16)-1`. -/
def CCDInfo.default (bias readNoise ccdGain : ℚ) : CCDInfo :=
  { bias := bias, readNoise := readNoise, ccdGain := ccdGain,
    satLevel := some (2 ^ 16 - 1) }

/-- Centroid.py `ImStats`: information about the image; `none` models Python
None (unknown). -/
structure ImStats where
  rad : Option ℚ
  outerRad : Option ℚ
  thresh : Option ℚ
  med : Option ℚ
  stdDev : Option ℚ
  dataCut : Option ℚ

/-- Centroid.py `CentroidData`.  Every field that defaults to None in the
Python constructor is an Option here.  The source stores in `xyErr` the pair
(jErr, iErr) of square roots `math.sqrt(radAsymmSigma / a)`; since those are
irrational in general the embedding stores the exact radicands, as
`xyErrSq = ((jErr)^2, (iErr)^2)`. -/
structure CentroidData where
  isOK : Bool
  msgStr : String
  nSat : Option ℕ
  rad : Option ℚ
  imStats : Option ImStats
  xyCtr : Option (ℚ × ℚ)
  xyErrSq : Option (ℚ × ℚ)
  asymm : Option ℚ
  pix : Option ℤ
  counts : Option ℚ

/-- A CentroidData with every datum unknown, as built by
`CentroidData(isOK=..., msgStr=..., rad=..., imStats=...)`. -/
def CentroidData.failed (msgStr : String) (rad : Option ℚ)
    (imStats : Option ImStats) : CentroidData :=
  { isOK := false, msgStr := msgStr, nSat := none, rad := rad,
    imStats := imStats, xyCtr := none, xyErrSq := none, asymm := none,
    pix := none, counts := none }

/-- The radial-profile kernel `radProf.radAsymmWeighted` (a C extension,
outside src/), taken as an abstract parameter per the spec's collaborator
contract: given a center pixel index it returns
(asymmetry, totalCounts, validPixelCount), or raises. -/
def RadKernel : Type := ℤ × ℤ → Except String (ℚ × ℚ × ℤ)

/-- The nine cells of the 3x3 gridlet in row-major order (the order in which
basicCentroid's `for i ... for j ...` loop computes them). -/
def cellOffsets : List (ℕ × ℕ) :=
  [(0,0),(0,1),(0,2),(1,0),(1,1),(1,2),(2,0),(2,1),(2,2)]

/-- Evaluate the kernel on the listed cells of the 3x3 gridlet centered on
`p`, in order, stopping at the first raised error (as the Python loop does). -/
def evalCells (kern : RadKernel) (p : ℤ × ℤ) :
    List (ℕ × ℕ) → Except String (List ((ℕ × ℕ) × (ℚ × ℚ × ℤ)))
  | [] => Except.ok []
  | c :: rest =>
    match kern (p.1 + c.1 - 1, p.2 + c.2 - 1) with
    | Except.error e => Except.error e
    | Except.ok v =>
      match evalCells kern p rest with
      | Except.error e => Except.error e
      | Except.ok vs => Except.ok ((c, v) :: vs)

/-- Value stored at a cell of the evaluated gridlet. -/
def cellLookup : List ((ℕ × ℕ) × (ℚ × ℚ × ℤ)) → (ℕ × ℕ) → ℚ × ℚ × ℤ
  | [], _ => (0, 0, 0)
  | (c, v) :: rest, key => if c = key then v else cellLookup rest key

/-- Asymmetry value stored at a cell of the evaluated gridlet (asymmArr). -/
def cellAsymm (g : List ((ℕ × ℕ) × (ℚ × ℚ × ℤ))) (c : ℕ × ℕ) : ℚ :=
  (cellLookup g c).1

/-- totCounts value stored at a cell of the evaluated gridlet (totCountsArr). -/
def cellCounts (g : List ((ℕ × ℕ) × (ℚ × ℚ × ℤ))) (c : ℕ × ℕ) : ℚ :=
  (cellLookup g c).2.1

/-- totPts value stored at a cell of the evaluated gridlet (totPtsArr). -/
def cellPts (g : List ((ℕ × ℕ) × (ℚ × ℚ × ℤ))) (c : ℕ × ℕ) : ℤ :=
  (cellLookup g c).2.2

/-- numarray.nd_image.minimum_position on the 3x3 asymmetry grid: the
row-major-first position holding the minimum value. -/
def minPosition (g : ℕ → ℕ → ℚ) : ℕ × ℕ :=
  (cellOffsets.drop 1).foldl
    (fun best c => if g c.1 c.2 < g best.1 best.2 then c else best) (0, 0)

/-- Outcome of the basicCentroid grid walk (the `while True` loop). -/
inductive WalkExit where
  /-- minimum asymmetry in the center cell; carries the best pixel and the
  evaluated 3x3 gridlet around it -/
  | converged (p : ℤ × ℤ) (cells : List ((ℕ × ℕ) × (ℚ × ℚ × ℤ)))
  /-- the walked-too-far RuntimeError -/
  | walkedOff
  /-- the iteration-bound RuntimeError, carrying the niter value reported -/
  | maxIter (niter : ℕ)
  /-- an exception raised by the radial-profile kernel -/
  | kernelFail (msg : String)

/-- One-for-one model of basicCentroid's grid-walk loop.  `fuel` is the
number of loop iterations still allowed before `niter > _MaxIter` raises;
`niter` counts the iterations already executed.  Returns the total number of
iterations whose body ran, together with the exit. -/
def walkLoop (kern : RadKernel) (guess : ℤ × ℤ) (radInt : ℤ) :
    ℕ → ℕ → ℤ × ℤ → ℕ × WalkExit
  | 0, niter, _ => (niter, WalkExit.maxIter (niter + 1))
  | fuel + 1, niter, p =>
    match evalCells kern p cellOffsets with
    | Except.error e => (niter + 1, WalkExit.kernelFail e)
    | Except.ok cells =>
      let mp := minPosition (fun i j => cellAsymm cells (i, j))
      let di : ℤ := (mp.1 : ℤ) - 1
      let dj : ℤ := (mp.2 : ℤ) - 1
      if di = 0 ∧ dj = 0 then (niter + 1, WalkExit.converged p cells)
      else
        let p' := (p.1 + di, p.2 + dj)
        if radInt ^ 2 ≤ (p'.1 - guess.1) ^ 2 + (p'.2 - guess.2) ^ 2 then
          (niter + 1, WalkExit.walkedOff)
        else
          walkLoop kern guess radInt fuel (niter + 1) p'

/-- The grid walk as started by basicCentroid: from the rounded initial
guess, with at most `_MaxIter = 40` iterations. -/
def gridWalk (kern : RadKernel) (guess : ℤ × ℤ) (radInt : ℤ) : ℕ × WalkExit :=
  walkLoop kern guess radInt MaxIter 0 guess

/-- All pixel indices of an image with `rows` x `cols` cells, row-major. -/
def gridCells (rows cols : ℕ) : List (ℕ × ℕ) :=
  ((List.range rows).map (fun i => (List.range cols).map (fun j => (i, j)))).flatten

/-- The saturated-pixel count of basicCentroid, written over full-image
coordinates.  Modelled from the spec for the part played by
ImUtil.subFrameCtr (outside src/): the subframe around `intXYCtr` of
half-size `subRad = rad+1` is the set of in-bounds indices within `subRad`
of the index of `intXYCtr`, clipped at the image edge.  Within it the source
counts pixels that are inside the circle of radius `radInt` around the
(un-truncated) refined center, are unmasked, and have data >= satLevel. -/
def nSatCount (rows cols : ℕ) (data : ℕ → ℕ → ℤ)
    (mask : Option (ℕ → ℕ → Bool)) (pmi : ℚ) (xyCtr : ℚ × ℚ) (radInt : ℤ)
    (sat : ℚ) : ℕ :=
  let intXY : ℚ × ℚ := ((pyTrunc xyCtr.1 : ℚ), (pyTrunc xyCtr.2 : ℚ))
  let subRad : ℤ := radInt + 1
  let wCtr : ℤ × ℤ := ijIndFromXYPos pmi intXY
  let ctrIJ : ℚ × ℚ := ijPosFromXYPos pmi xyCtr
  ((gridCells rows cols).filter (fun c =>
    (decide (wCtr.1 - subRad ≤ (c.1 : ℤ) ∧ (c.1 : ℤ) ≤ wCtr.1 + subRad)) &&
    (decide (wCtr.2 - subRad ≤ (c.2 : ℤ) ∧ (c.2 : ℤ) ≤ wCtr.2 + subRad)) &&
    (decide (((c.1 : ℚ) - ctrIJ.1) ^ 2 + ((c.2 : ℚ) - ctrIJ.2) ^ 2 ≤ (radInt : ℚ) ^ 2)) &&
    (match mask with
     | none => true
     | some m => !(m c.1 c.2)) &&
    (decide (sat ≤ (data c.1 c.2 : ℚ))))).length

/-- `ai` of basicCentroid: parabolic curvature along the first (i) axis,
`0.5 * (asymmArr[2,1] - 2*asymmArr[1,1] + asymmArr[0,1])`. -/
def fitAI (cells : List ((ℕ × ℕ) × (ℚ × ℚ × ℤ))) : ℚ :=
  (1/2 : ℚ) * (cellAsymm cells (2, 1) - 2 * cellAsymm cells (1, 1) + cellAsymm cells (0, 1))

/-- `bi` of basicCentroid: `0.5 * (asymmArr[2,1] - asymmArr[0,1])`. -/
def fitBI (cells : List ((ℕ × ℕ) × (ℚ × ℚ × ℤ))) : ℚ :=
  (1/2 : ℚ) * (cellAsymm cells (2, 1) - cellAsymm cells (0, 1))

/-- `aj` of basicCentroid: parabolic curvature along the second (j) axis,
`0.5 * (asymmArr[1,2] - 2*asymmArr[1,1] + asymmArr[1,0])`. -/
def fitAJ (cells : List ((ℕ × ℕ) × (ℚ × ℚ × ℤ))) : ℚ :=
  (1/2 : ℚ) * (cellAsymm cells (1, 2) - 2 * cellAsymm cells (1, 1) + cellAsymm cells (1, 0))

/-- `bj` of basicCentroid: `0.5 * (asymmArr[1,2] - asymmArr[1,0])`. -/
def fitBJ (cells : List ((ℕ × ℕ) × (ℚ × ℚ × ℤ))) : ℚ :=
  (1/2 : ℚ) * (cellAsymm cells (1, 2) - cellAsymm cells (1, 0))

/-- `di` of basicCentroid: sub-pixel offset along i, `-0.5*bi/ai`. -/
def fitDI (cells : List ((ℕ × ℕ) × (ℚ × ℚ × ℤ))) : ℚ :=
  -(1/2 : ℚ) * fitBI cells / fitAI cells

/-- `dj` of basicCentroid: sub-pixel offset along j, `-0.5*bj/aj`. -/
def fitDJ (cells : List ((ℕ × ℕ) × (ℚ × ℚ × ℤ))) : ℚ :=
  -(1/2 : ℚ) * fitBJ cells / fitAJ cells

/-- The refined center of basicCentroid in xy position coordinates:
`xyPosFromIJPos (maxi + di, maxj + dj)`. -/
def refinedXYCtr (pmi : ℚ) (p : ℤ × ℤ) (cells : List ((ℕ × ℕ) × (ℚ × ℚ × ℤ))) : ℚ × ℚ :=
  xyPosFromIJPos pmi ((p.1 : ℚ) + fitDI cells, (p.2 : ℚ) + fitDJ cells)

/-- The nSat field of a successful basicCentroid: None when no saturation
level is configured, else the saturated-pixel count. -/
def nSatOpt (rows cols : ℕ) (data : ℕ → ℕ → ℤ) (mask : Option (ℕ → ℕ → Bool))
    (pmi : ℚ) (xyCtr : ℚ × ℚ) (radInt : ℤ) (ccd : CCDInfo) : Option ℕ :=
  match ccd.satLevel with
  | none => none
  | some sat => some (nSatCount rows cols data mask pmi xyCtr radInt sat)

/-- The successful CentroidData that basicCentroid returns once the walk has
converged at `p` with gridlet `cells` and no numeric failure occurred. -/
def centroidSuccess (rows cols : ℕ) (data : ℕ → ℕ → ℤ)
    (mask : Option (ℕ → ℕ → Bool)) (pmi : ℚ) (radInt : ℤ) (ccd : CCDInfo)
    (imStats : Option ImStats) (p : ℤ × ℤ)
    (cells : List ((ℕ × ℕ) × (ℚ × ℚ × ℤ))) : CentroidData :=
  { isOK := true, msgStr := "",
    nSat := nSatOpt rows cols data mask pmi (refinedXYCtr pmi p cells) radInt ccd,
    rad := some (radInt : ℚ), imStats := imStats,
    xyCtr := some (refinedXYCtr pmi p cells),
    xyErrSq := some (cellAsymm cells (1, 1) / fitAJ cells,
      cellAsymm cells (1, 1) / fitAI cells),
    asymm := some (cellAsymm cells (1, 1)), pix := some (cellPts cells (1, 1)),
    counts := some (cellCounts cells (1, 1)) }

/-- The body of basicCentroid's `try:` block, downstream of the grid walk:
parabolic refinement, error estimate, saturated-pixel count.  An
`Except.error` models an exception that the source's outer handler turns
into a failed CentroidData. -/
def basicCentroidTry (rows cols : ℕ) (data : ℕ → ℕ → ℤ)
    (mask : Option (ℕ → ℕ → Bool)) (kern : RadKernel) (pmi : ℚ)
    (ijIndGuess : ℤ × ℤ) (radInt : ℤ) (ccd : CCDInfo)
    (imStats : Option ImStats) : Except String CentroidData :=
  match (gridWalk kern ijIndGuess radInt).2 with
  | WalkExit.kernelFail e => Except.error e
  | WalkExit.maxIter n =>
    Except.error ("could not find a star in " ++ toString n ++ " iterations")
  | WalkExit.walkedOff =>
    Except.error ("could not find star within " ++ toString radInt ++ " pixels")
  | WalkExit.converged p cells =>
    if fitAI cells = 0 then Except.error ("float division by zero")
    else if fitAJ cells = 0 then Except.error ("float division by zero")
    else if cellAsymm cells (1, 1) / fitAI cells < 0 then
      Except.error ("math domain error")
    else if cellAsymm cells (1, 1) / fitAJ cells < 0 then
      Except.error ("math domain error")
    else
      Except.ok (centroidSuccess rows cols data mask pmi radInt ccd imStats p cells)

/-- Clamp an out-of-range neighbor index to the array edge.  For a 3x3
filter footprint numarray.nd_image's default boundary mode (reflect)
repeats the edge sample, which for a one-step overrun coincides with
clamping. -/
def clampIdx (n : ℕ) (x : ℤ) : ℕ :=
  min (max x 0).toNat (n - 1)

/-- Insert into a sorted list of integers (ascending). -/
def insertSorted (x : ℤ) : List ℤ → List ℤ
  | [] => [x]
  | y :: ys => if x ≤ y then x :: y :: ys else y :: insertSorted x ys

/-- Insertion sort, ascending. -/
def sortZ (l : List ℤ) : List ℤ :=
  l.foldr insertSorted []

/-- Median of a list of 9 values: the middle element (index 4) of the sorted
list, as numarray.nd_image.median_filter computes it for a 3x3 footprint. -/
def median9 (l : List ℤ) : ℤ :=
  (sortZ l).getD (l.length / 2) 0

/-- Is subframe pixel (i,j) inside the circle of radius `rad` around
`subCtr`?  The source's circleMask marks the complement (dist² > rad²). -/
def inCircle (subCtr : ℚ × ℚ) (rad : ℚ) (i j : ℕ) : Bool :=
  decide (((i : ℚ) - subCtr.1) ^ 2 + ((j : ℚ) - subCtr.2) ^ 2 ≤ rad ^ 2)

/-- The `dataPixels ... .filled(med)` array of `centroid`: subframe data with
every pixel that is masked or outside the search circle replaced by the
median.  Filling a UInt16 array with a float truncates the fill value, hence
`fill : ℤ` (the caller passes `pyTrunc med`). -/
def filledPix (subData : ℕ → ℕ → ℤ) (subMask : ℕ → ℕ → Bool)
    (subCtr : ℚ × ℚ) (rad : ℚ) (fill : ℤ) (i j : ℕ) : ℤ :=
  if subMask i j || !(inCircle subCtr rad i j) then fill else subData i j

/-- The 3x3 neighborhood of (i,j) with edge clamping, row-major. -/
def neighborhood3 (m n : ℕ) (f : ℕ → ℕ → ℤ) (i j : ℕ) : List ℤ :=
  [f (clampIdx m ((i : ℤ) - 1)) (clampIdx n ((j : ℤ) - 1)),
   f (clampIdx m ((i : ℤ) - 1)) (clampIdx n (j : ℤ)),
   f (clampIdx m ((i : ℤ) - 1)) (clampIdx n ((j : ℤ) + 1)),
   f (clampIdx m ((i : ℤ))) (clampIdx n ((j : ℤ) - 1)),
   f (clampIdx m ((i : ℤ))) (clampIdx n (j : ℤ)),
   f (clampIdx m ((i : ℤ))) (clampIdx n ((j : ℤ) + 1)),
   f (clampIdx m ((i : ℤ) + 1)) (clampIdx n ((j : ℤ) - 1)),
   f (clampIdx m ((i : ℤ) + 1)) (clampIdx n (j : ℤ)),
   f (clampIdx m ((i : ℤ) + 1)) (clampIdx n ((j : ℤ) + 1))]

/-- `smoothedData` of `centroid`: the filled subframe after the 3x3 median
filter. -/
def smoothedPix (m n : ℕ) (subData : ℕ → ℕ → ℤ) (subMask : ℕ → ℕ → Bool)
    (subCtr : ℚ × ℚ) (rad : ℚ) (fill : ℤ) (i j : ℕ) : ℤ :=
  median9 (neighborhood3 m n (filledPix subData subMask subCtr rad fill) i j)

/-- The pixels that `centroid` labels: smoothed value strictly above the
data cut (the source tests `smoothedData > dataCut`). -/
def aboveCells (m n : ℕ) (subData : ℕ → ℕ → ℤ) (subMask : ℕ → ℕ → Bool)
    (subCtr : ℚ × ℚ) (rad : ℚ) (fill : ℤ) (dataCut : ℚ) : List (ℕ × ℕ) :=
  (gridCells m n).filter (fun c =>
    decide (dataCut < ((smoothedPix m n subData subMask subCtr rad fill c.1 c.2 : ℤ) : ℚ)))

/-- 8-connectivity (3x3 structuring element) between two distinct pixels. -/
def adj8 (p q : ℕ × ℕ) : Bool :=
  (!(p == q)) && (p.1 ≤ q.1 + 1 && q.1 ≤ p.1 + 1) && (p.2 ≤ q.2 + 1 && q.2 ≤ p.2 + 1)

/-- One step of connected-component closure: all candidate cells that are in
`s` or 8-adjacent to a member of `s`. -/
def growComp (cells : List (ℕ × ℕ)) (s : List (ℕ × ℕ)) : List (ℕ × ℕ) :=
  cells.filter (fun q => s.contains q || s.any (fun p => adj8 p q))

/-- Iterate a list transformer. -/
def iterList (g : List (ℕ × ℕ) → List (ℕ × ℕ)) : ℕ → List (ℕ × ℕ) → List (ℕ × ℕ)
  | 0, s => s
  | k + 1, s => iterList g k (g s)

/-- The 8-connected component (among `cells`) containing `p`, computed by
closing the one-step expansion `cells.length` times. -/
def compFrom (cells : List (ℕ × ℕ)) (p : ℕ × ℕ) : List (ℕ × ℕ) :=
  iterList (growComp cells) cells.length [p]

/-- Greatest first coordinate in a component. -/
def maxFst (c : List (ℕ × ℕ)) : ℕ := (c.map Prod.fst).foldr max 0

/-- Least first coordinate in a component. -/
def minFst (c : List (ℕ × ℕ)) : ℕ :=
  match c.map Prod.fst with
  | [] => 0
  | x :: xs => xs.foldr min x

/-- Greatest second coordinate in a component. -/
def maxSnd (c : List (ℕ × ℕ)) : ℕ := (c.map Prod.snd).foldr max 0

/-- Least second coordinate in a component. -/
def minSnd (c : List (ℕ × ℕ)) : ℕ :=
  match c.map Prod.snd with
  | [] => 0
  | x :: xs => xs.foldr min x

/-- The bounding-box extents of a component, as nd_image.find_objects
reports them (`slc.stop - slc.start` per axis). -/
def compExtents (c : List (ℕ × ℕ)) : ℕ × ℕ :=
  (maxFst c + 1 - minFst c, maxSnd c + 1 - minSnd c)

/-- The `for ijSlice in slices: ... if 1 not in ijSize: break` test of
`centroid`: some labelled 8-connected component of above-cut pixels has
bounding-box extent different from 1 (hence at least 2) along both axes. -/
def hasSignal (m n : ℕ) (subData : ℕ → ℕ → ℤ) (subMask : ℕ → ℕ → Bool)
    (subCtr : ℚ × ℚ) (rad : ℚ) (fill : ℤ) (dataCut : ℚ) : Bool :=
  let cells := aboveCells m n subData subMask subCtr rad fill dataCut
  cells.any (fun p =>
    let c := compFrom cells p
    (!((compExtents c).1 == 1)) && (!((compExtents c).2 == 1)))

/-- The ImStats record that `centroid` builds before the signal test. -/
def gateImStats (rad thresh med stdDev : ℚ) : ImStats :=
  { rad := some rad, outerRad := some (rad + OuterRadAdd), thresh := some thresh,
    med := some med, stdDev := some stdDev,
    dataCut := some (med + thresh * stdDev) }

/-- Centroid.py `centroid` (the Signal Gate).  The external collaborators
are taken as parameters per the spec's contracts: `subData`/`subMask` are
the extracted `(rad+_OuterRadAdd)`-sized subframes (ImUtil.subFrameCtr,
outside src/), already cast to UInt16/Bool; `subCtr` is the guess position
in subframe coordinates; `med`/`stdDev` are the background statistics that
ImUtil.skyStats (outside src/) returns for the region outside the search
circle.  `minThresh` is Constants.MinThresh (outside src/).  `bc` abstracts
the tail call to basicCentroid; the no-signal branch never applies it. -/
def centroid (m n : ℕ) (subData : ℕ → ℕ → ℤ) (subMask : ℕ → ℕ → Bool)
    (subCtr : ℚ × ℚ) (rad : ℚ) (thresh0 minThresh : ℚ) (med stdDev : ℚ)
    (bc : ImStats → CentroidData) : CentroidData :=
  let thresh := max minThresh thresh0
  let dataCut := med + thresh * stdDev
  let imStats := gateImStats rad thresh med stdDev
  if hasSignal m n subData subMask subCtr rad (pyTrunc med) dataCut then
    bc imStats
  else
    CentroidData.failed ("No signal") (some rad) (some imStats)

/-- The claim's reading of the Signal Gate detection predicate, written
from the claim's words for comparison with the source: connected components
of INNER pixels whose smoothed value is AT OR ABOVE the cut level, some
component extending at least 2 pixels along both axes. -/
def claimSignalGE (m n : ℕ) (subData : ℕ → ℕ → ℤ) (subMask : ℕ → ℕ → Bool)
    (subCtr : ℚ × ℚ) (rad : ℚ) (fill : ℤ) (dataCut : ℚ) : Bool :=
  let cells := (gridCells m n).filter (fun c =>
    inCircle subCtr rad c.1 c.2 &&
    decide (dataCut ≤ ((smoothedPix m n subData subMask subCtr rad fill c.1 c.2 : ℤ) : ℚ)))
  cells.any (fun p =>
    let c := compFrom cells p
    (c.any (fun q => !(q.1 == p.1))) && (c.any (fun q => !(q.2 == p.2))))

/-- Centroid.py `basicCentroid`.  The result `Except.error e` models the one
exception the function raises past its boundary (the ValueError for a
malformed initial guess, raised before the `try:` block); `Except.ok cd`
models a returned CentroidData, whose isOK flag is false when the inner
computation raised and was caught. -/
def basicCentroid (rows cols : ℕ) (data : ℕ → ℕ → ℤ)
    (mask : Option (ℕ → ℕ → Bool)) (kern : RadKernel) (xyGuess : List ℚ)
    (rad : ℚ) (ccd : CCDInfo) (imStats : Option ImStats) (pmi : ℚ) :
    Except String CentroidData :=
  if xyGuess.length = 2 then
    let ijIndGuess := ijIndFromXYPos pmi (xyGuess.getD 0 0, xyGuess.getD 1 0)
    let radInt := pyRound (max rad MinRad)
    match basicCentroidTry rows cols data mask kern pmi ijIndGuess radInt ccd imStats with
    | Except.ok cd => Except.ok cd
    | Except.error e =>
      Except.ok (CentroidData.failed e (some (radInt : ℚ)) imStats)
  else
    Except.error ("initial guess=" ++ toString xyGuess ++ " must have 2 elements")

/-- StarShape.py `_MinRad`. -/
def SSMinRad : ℚ := 3

/-- StarShape.py `_FWHMMin`: low end of the FWHM range that is explored. -/
def FWHMMin : ℚ := 1

/-- StarShape.py `_FWHMMax`: high end of the FWHM range that is explored. -/
def FWHMMax : ℚ := 30

/-- StarShape.py `_FWHMDelta`: FWHM table spacing. -/
def FWHMDelta : ℚ := 1/4

/-- StarShape.py `_DMax`. -/
def DMax : ℚ := 4096

/-- StarShape.py `StarShapeData` as `_fitRadProfile` returns it (all four
fields are exact rationals at this stage). -/
structure StarShapeData where
  ampl : ℚ
  fwhm : ℚ
  bkgnd : ℚ
  chiSq : ℚ

/-- StarShape.py `_wpFromFWHM`: width parameter (1/sigma^2) from FWHM.
`fps` is Constants.FWHMPerSigma (outside src/), modelled from the spec as
an abstract positive conversion constant (the source docstring gives
2*sqrt(2 ln 2), an irrational the embedding keeps symbolic). -/
def wpFromFWHM (fps fwhm : ℚ) : ℚ := (fps / fwhm) ^ 2

/-- StarShape.py `_fwhmFromWPInd`: FWHM from a (possibly fractional) table
index. -/
def fwhmFromWPInd (wpInd : ℚ) : ℚ := FWHMMax - FWHMDelta * wpInd

/-- StarShape.py `_wpIndFromFWHM`: nearest fractional table index for a
FWHM. -/
def wpIndFromFWHM (fwhm : ℚ) : ℚ := (FWHMMax - fwhm) / FWHMDelta

/-- Length of the width-parameter table `_WPArr`:
`int(((_FWHMMax - _FWHMMin) / _FWHMDelta) + 0.5)`. -/
def wpArrLen : ℕ := (pyTrunc ((FWHMMax - FWHMMin) / FWHMDelta + 1/2)).toNat

/-- StarShape.py `_makeWPArr`: the precomputed width-parameter table. -/
def makeWPArr (fps : ℚ) : List ℚ :=
  (List.range wpArrLen).map (fun (wpInd : ℕ) => wpFromFWHM fps (fwhmFromWPInd (wpInd : ℚ)))

/-- StarShape.py `_seeProf` at one radius: the double-Gaussian template
value, scaled by `_DMax/1.1` and truncated to Int32.  `e` abstracts the
real exponential num.exp, which has no rational embedding; it is a
parameter of the whole fitter. -/
def seeProfFn (e : ℚ → ℚ) (wp rsq : ℚ) : ℤ :=
  pyTrunc ((e (rsq * (-(1/2) * wp)) + (1/10) * e ((1/4) * (rsq * (-(1/2) * wp)))) * (DMax / (11/10)) + 1/2)

/-- StarShape.py `_seeProf` over the whole radius-squared array. -/
def seeProfList (e : ℚ → ℚ) (radSqL : List ℚ) (wp : ℚ) : List ℤ :=
  radSqL.map (seeProfFn e wp)

/-- Elementwise product of two arrays, as numarray `a*b`. -/
def listMulQ (a b : List ℚ) : List ℚ :=
  List.zipWith (fun x y => x * y) a b

/-- Sum of an elementwise product, as `num.sum(a*b)` with numarray
broadcasting over equal-length arrays. -/
def wsum (a b : List ℚ) : ℚ :=
  (listMulQ a b).sum

/-- An integer array viewed as floats. -/
def intListQ (l : List ℤ) : List ℚ := l.map (fun (z : ℤ) => (z : ℚ))

/-- A count array viewed as floats. -/
def natListQ (l : List ℕ) : List ℚ := l.map (fun (z : ℕ) => (z : ℚ))

/-- The residual array `radProf - ampl*seeProf - bkgnd` of `_fitIter`. -/
def fitResid (ampl bkgnd : ℚ) (ys ss : List ℚ) : List ℚ :=
  List.zipWith (fun y s => y - ampl * s - bkgnd) ys ss

/-- Modelled from the spec: `radProf.radSqByRadInd` (C kernel outside src/)
returns, for each radial index, the squared radius; the radial profile is
indexed by integer radius. -/
def radSqByRadInd (npt : ℕ) : List ℚ :=
  (List.range npt).map (fun (i : ℕ) => ((i : ℚ)) ^ 2)

/-- StarShape.py `_fitIter`: evaluate the template at width parameter `wp`,
solve the closed-form weighted linear least squares for amplitude and
background, and compute the weighted chi-square.  The ArithmeticError the
source catches and re-raises as RuntimeError is the division by a zero
normal-equations determinant (or by a zero total weight). -/
def fitIter (e : ℚ → ℚ) (radProfL : List ℚ) (nPtsL : List ℕ)
    (radWeightL radSqL : List ℚ) (sumNPts sumRadProf : ℚ) (wp : ℚ) :
    Except String (ℚ × ℚ × ℚ × List ℤ) :=
  let sp := seeProfList e radSqL wp
  let spQ : List ℚ := intListQ sp
  let nQ : List ℚ := natListQ nPtsL
  let nPtsSeeProf := listMulQ nQ spQ
  let sumSeeProf := nPtsSeeProf.sum
  let sumSeeProfSq := (listMulQ nPtsSeeProf spQ).sum
  let sumSeeProfRadProf := (listMulQ nPtsSeeProf radProfL).sum
  let disc := sumNPts * sumSeeProfSq - sumSeeProf ^ 2
  if disc = 0 then Except.error ("Could not compute shape: division by zero")
  else if sumNPts = 0 then Except.error ("Could not compute shape: division by zero")
  else
    let ampl := (sumNPts * sumSeeProfRadProf - sumRadProf * sumSeeProf) / disc
    let bkgnd := (sumSeeProfSq * sumRadProf - sumSeeProf * sumSeeProfRadProf) / disc
    let diff := fitResid ampl bkgnd radProfL spQ
    let chiSq := (listMulQ radWeightL (diff.map (fun d => d ^ 2))).sum / sumNPts
    Except.ok (ampl, bkgnd, chiSq, sp)

/-- The `while True` width-parameter walk of `_fitRadProfile`.  State:
remaining fuel (the walk visits each table index at most once after its
single direction reversal, so `wpArr.length + 4` suffices), current table
index `wpInd`, direction `direc`, iteration number, and the chiSqByWPInd
table.  Returns the final (backed-up) index and the filled table, or the
raised error. -/
def fitWalk (e : ℚ → ℚ) (wpArr : List ℚ) (radProfL : List ℚ)
    (nPtsL : List ℕ) (radWeightL radSqL : List ℚ) (sumNPts sumRadProf : ℚ) :
    ℕ → ℤ → ℤ → ℕ → List ℚ → Except String (ℤ × List ℚ)
  | 0, _, _, _, _ => Except.error ("fit walk iteration limit exceeded")
  | fuel + 1, wpInd, direc, iterNum, tbl =>
    let wp := wpArr.getD wpInd.toNat 0
    match fitIter e radProfL nPtsL radWeightL radSqL sumNPts sumRadProf wp with
    | Except.error msg => Except.error msg
    | Except.ok (_, _, chiSq, _) =>
      let tbl' := tbl.set wpInd.toNat chiSq
      let cur := tbl'.getD wpInd.toNat 0
      let prev := tbl'.getD (wpInd - direc).toNat 0
      let next := fun (w' d' : ℤ) =>
        if 0 ≤ w' ∧ w' < (wpArr.length : ℤ) then
          fitWalk e wpArr radProfL nPtsL radWeightL radSqL sumNPts sumRadProf
            fuel w' d' (iterNum + 1) tbl'
        else
          Except.error ("wpInd has walked off the edge; wpInd=" ++ toString w' ++
            ", iterNum=" ++ toString iterNum)
      if iterNum = 0 then next (wpInd + direc) direc
      else if iterNum = 1 then
        if prev < cur then next (wpInd - 2 * direc) (-direc)
        else next (wpInd + direc) direc
      else
        if prev < cur then Except.ok (wpInd - direc, tbl')
        else next (wpInd + direc) direc

/-- StarShape.py `_fitRadProfile`: walk the width-parameter table to the
discrete chi-square minimum, refine by a parabolic fit over the three
bracketing chi-square samples, and re-run the linear fit at the refined
width parameter. -/
def fitRadProfile (e : ℚ → ℚ) (fps : ℚ) (radProfL : List ℚ) (nPtsL : List ℕ)
    (predFWHM : ℚ) : Except String StarShapeData :=
  let wpArr := makeWPArr fps
  let ncell := wpArr.length
  let npt := radProfL.length
  let wpInd0 := pyTrunc (wpIndFromFWHM predFWHM + 1/2)
  let wpInd1 := max 1 wpInd0
  let wpInd2 := min wpInd1 ((ncell : ℤ) - 2)
  let radSqL := radSqByRadInd npt
  let nQ : List ℚ := natListQ nPtsL
  let radWeightL := nQ
  let sumNPts := nQ.sum
  let sumRadProf := wsum nQ radProfL
  match fitWalk e wpArr radProfL nPtsL radWeightL radSqL sumNPts sumRadProf
      (ncell + 4) wpInd2 1 0 (List.replicate ncell 0) with
  | Except.error msg => Except.error msg
  | Except.ok (w, tbl) =>
    let b := (1/2 : ℚ) * (tbl.getD (w + 1).toNat 0 - tbl.getD (w - 1).toNat 0)
    let a := (1/2 : ℚ) * (tbl.getD (w + 1).toNat 0 - 2 * tbl.getD w.toNat 0 +
      tbl.getD (w - 1).toNat 0)
    if a = 0 then Except.error ("float division by zero")
    else
      let wpIndMin := (w : ℚ) - (1/2) * b / a
      let fwhmMin := fwhmFromWPInd wpIndMin
      if fwhmMin = 0 then Except.error ("float division by zero")
      else
        let wpMin := wpFromFWHM fps fwhmMin
        match fitIter e radProfL nPtsL radWeightL radSqL sumNPts sumRadProf wpMin with
        | Except.error msg => Except.error msg
        | Except.ok (ampl, bkgnd, chiSq, _) =>
          Except.ok
            { ampl := ampl * DMax, fwhm := fwhmMin, bkgnd := bkgnd,
              chiSq := chiSq }

/-- The result of `starShape`.  The source's final `gsData.fwhm` is
`math.sqrt(corrSigSq) / FWHMPerSigma`, irrational in general, so the
embedding records the exact radicand `corrSigSq` instead. -/
structure StarShapeFinal where
  ampl : ℚ
  bkgnd : ℚ
  chiSq : ℚ
  corrSigSq : ℚ

/-- StarShape.py `offSq`: the squared Euclidean offset `d^2` between the
supplied sub-pixel center and the nearest pixel center (the profile's
anchor), computed per axis as `abs(round(pos) - pos)` on the ij position. -/
def starOffSq (pmi : ℚ) (xyCtr : ℚ × ℚ) : ℚ :=
  abs ((pyRound (ijPosFromXYPos pmi xyCtr).1 : ℚ) - (ijPosFromXYPos pmi xyCtr).1) ^ 2 +
  abs ((pyRound (ijPosFromXYPos pmi xyCtr).2 : ℚ) - (ijPosFromXYPos pmi xyCtr).2) ^ 2

/-- StarShape.py `starShape`.  The radial profile that the radProf C kernel
(outside src/) fills is taken as the parameters `radProfL`/`nPtsL` per the
spec's collaborator contract (`var` is unused by the fit).  The value
`Except.error msg` models an exception propagating out of `starShape`: the
function body has no handler. -/
def starShape (e : ℚ → ℚ) (fps pmi : ℚ) (radProfL : List ℚ) (nPtsL : List ℕ)
    (xyCtr : ℚ × ℚ) (rad : ℚ) (predFWHM : Option ℚ) :
    Except String StarShapeFinal :=
  let offSq := starOffSq pmi xyCtr
  let radInt := pyRound (max rad SSMinRad)
  let predF := predFWHM.getD (radInt : ℚ)
  match fitRadProfile e fps radProfL nPtsL predF with
  | Except.error msg => Except.error msg
  | Except.ok gs =>
    let rawFWHM := gs.fwhm
    let rawSigSq := (fps * rawFWHM) ^ 2
    let corrSigSq := rawSigSq - (1/2) * offSq
    if corrSigSq < 0 then Except.error ("math domain error")
    else
      Except.ok
        { ampl := gs.ampl, bkgnd := gs.bkgnd, chiSq := gs.chiSq,
          corrSigSq := corrSigSq }

/-! ### General-purpose lemmas -/

theorem getD_range_map (f : ℕ → ℚ) (n i : ℕ) (h : i < n) (d : ℚ) :
    ((List.range n).map f).getD i d = f i := by
  rw [List.getD_eq_getElem?_getD, List.getElem?_map, List.getElem?_range h]
  rfl

theorem wpArrLen_eq : wpArrLen = 116 := by
  have h1 : ((FWHMMax - FWHMMin) / FWHMDelta + 1/2 : ℚ) = 233/2 := by
    norm_num [FWHMMax, FWHMMin, FWHMDelta]
  have h2 : (0:ℚ) ≤ 233/2 := by norm_num
  have h3 : Int.floor ((233:ℚ)/2) = 116 := by
    rw [Int.floor_eq_iff]
    norm_num
  unfold wpArrLen pyTrunc
  rw [h1, if_pos h2, h3]
  rfl

/-! ### C7: the width-parameter table -/

/-- C7 counterexample: the table has 116 entries (indices 0..115) and none
of them corresponds to FWHM = `_FWHMMin` = 1.0; the smallest tabulated FWHM
is 1.25.  This refutes the claim that the table "contains an entry for
every FWHM value from 1.0 to 30.0 pixels in steps of 0.25 (so FWHM = 1.0 is
reachable)". -/
theorem wpArr_no_fwhm_one_entry :
    wpArrLen = 116 ∧ fwhmFromWPInd ((116 : ℚ) - 1) = 5/4 ∧
    ((List.range wpArrLen).all (fun i => !(fwhmFromWPInd (i : ℚ) == FWHMMin))) = true := by
  refine ⟨wpArrLen_eq, by norm_num [fwhmFromWPInd, FWHMMax, FWHMDelta], ?_⟩
  rw [List.all_eq_true]
  intro i hi
  rw [List.mem_range, wpArrLen_eq] at hi
  have hne : fwhmFromWPInd (i : ℚ) ≠ FWHMMin := by
    unfold fwhmFromWPInd FWHMMax FWHMDelta FWHMMin
    intro hcontra
    have hcast : (i : ℚ) = 116 := by linarith
    have : (i : ℕ) = 116 := by exact_mod_cast hcast
    omega
  simpa using hne

/-- C7 as amended: the table `_WPArr` has 116 entries covering FWHM values
30.0, 29.75, ..., 1.25 (step 0.25; the value `_FWHMMin` = 1.0 itself is not
included); FWHM decreases strictly and the width parameter increases
strictly with the table index; and the index/FWHM conversions are exact
mutually inverse linear maps FWHM = 30 - 0.25*index, index = (30-FWHM)/0.25. -/
theorem makeWPArr_table_properties (fps : ℚ) (hfps : 0 < fps) :
    (makeWPArr fps).length = 116 ∧
    (∀ i : ℕ, i < 116 → (makeWPArr fps).getD i 0 = wpFromFWHM fps (30 - (1/4) * i)) ∧
    fwhmFromWPInd 0 = 30 ∧ fwhmFromWPInd (115 : ℚ) = 5/4 ∧
    (∀ i : ℕ, fwhmFromWPInd ((i : ℚ) + 1) = fwhmFromWPInd (i : ℚ) - 1/4) ∧
    (∀ i j : ℕ, i < j → j < 116 →
      fwhmFromWPInd (j : ℚ) < fwhmFromWPInd (i : ℚ) ∧
      (makeWPArr fps).getD i 0 < (makeWPArr fps).getD j 0) ∧
    (∀ x : ℚ, wpIndFromFWHM (fwhmFromWPInd x) = x ∧
      fwhmFromWPInd (wpIndFromFWHM x) = x) := by
  have hlen : (makeWPArr fps).length = 116 := by
    rw [makeWPArr, List.length_map, List.length_range, wpArrLen_eq]
  have hget : ∀ i : ℕ, i < 116 →
      (makeWPArr fps).getD i 0 = wpFromFWHM fps (30 - (1/4) * i) := by
    intro i hi
    rw [makeWPArr, getD_range_map _ _ _ (by rw [wpArrLen_eq]; exact hi)]
    unfold fwhmFromWPInd FWHMMax FWHMDelta
    norm_num
  have hfwhm_pos : ∀ i : ℕ, i < 116 → (0 : ℚ) < 30 - (1/4) * i := by
    intro i hi
    have : (i : ℚ) ≤ 115 := by exact_mod_cast Nat.lt_succ_iff.mp hi
    linarith
  refine ⟨hlen, hget, by norm_num [fwhmFromWPInd, FWHMMax, FWHMDelta],
    by norm_num [fwhmFromWPInd, FWHMMax, FWHMDelta], ?_, ?_, ?_⟩
  · intro i
    unfold fwhmFromWPInd FWHMMax FWHMDelta
    ring
  · intro i j hij hj
    have hi : i < 116 := hij.trans hj
    have hqij : (i : ℚ) < (j : ℚ) := by exact_mod_cast hij
    constructor
    · unfold fwhmFromWPInd FWHMMax FWHMDelta
      linarith
    · rw [hget i hi, hget j hj]
      unfold wpFromFWHM
      have hpi : (0 : ℚ) < 30 - (1/4) * i := hfwhm_pos i hi
      have hpj : (0 : ℚ) < 30 - (1/4) * j := hfwhm_pos j hj
      have hlt : 30 - (1/4) * (j : ℚ) < 30 - (1/4) * i := by linarith
      have hdiv : fps / (30 - (1/4) * i) < fps / (30 - (1/4) * j) :=
        div_lt_div_of_pos_left hfps hpj hlt
      have hnn : 0 ≤ fps / (30 - (1/4) * (i : ℚ)) := le_of_lt (div_pos hfps hpi)
      exact pow_lt_pow_left₀ hdiv hnn (by norm_num)
  · intro x
    unfold wpIndFromFWHM fwhmFromWPInd FWHMMax FWHMDelta
    constructor <;> ring

/-- Witness for `makeWPArr_table_properties` at fps = 2 (a concrete positive
conversion constant): table length, first/last FWHM values, one
monotonicity instance, and one invertibility instance. -/
theorem makeWPArr_table_properties_witness :
    (makeWPArr 2).length = 116 ∧ fwhmFromWPInd 0 = 30 ∧
    fwhmFromWPInd (0 : ℚ) < fwhmFromWPInd ((0 : ℚ) + 1) + 1 ∧
    (makeWPArr 2).getD 0 0 < (makeWPArr 2).getD 1 0 ∧
    wpIndFromFWHM (fwhmFromWPInd 7) = 7 := by
  obtain ⟨h1, _, h3, _, h5, h6, h7⟩ :=
    makeWPArr_table_properties 2 (by norm_num)
  refine ⟨h1, h3, ?_, (h6 0 1 (by norm_num) (by norm_num)).2, (h7 7).1⟩
  have := h5 0
  rw [Nat.cast_zero] at this
  rw [this]
  linarith

/-! ### C2: termination of the basicCentroid grid walk -/

theorem evalCells_ok_of_total (kern : RadKernel)
    (hkern : ∀ q : ℤ × ℤ, ∃ v, kern q = Except.ok v) (p : ℤ × ℤ) :
    ∀ l : List (ℕ × ℕ), ∃ vs, evalCells kern p l = Except.ok vs := by
  intro l
  induction l with
  | nil => exact ⟨[], rfl⟩
  | cons c rest ih =>
    obtain ⟨v, hv⟩ := hkern (p.1 + c.1 - 1, p.2 + c.2 - 1)
    obtain ⟨vs, hvs⟩ := ih
    refine ⟨(c, v) :: vs, ?_⟩
    simp only [evalCells, hv, hvs]

theorem walkLoop_count_le (kern : RadKernel) (guess : ℤ × ℤ) (radInt : ℤ) :
    ∀ (fuel niter : ℕ) (p : ℤ × ℤ),
      (walkLoop kern guess radInt fuel niter p).1 ≤ niter + fuel := by
  intro fuel
  induction fuel with
  | zero =>
    intro niter p
    simp [walkLoop]
  | succ n ih =>
    intro niter p
    rw [walkLoop]
    cases hev : evalCells kern p cellOffsets with
    | error e => simp
    | ok cells =>
      dsimp only
      split
      · simp
      · split
        · simp
        · calc (walkLoop kern guess radInt n (niter + 1) _).1 ≤ (niter + 1) + n := ih _ _
            _ = niter + (n + 1) := by omega

theorem walkLoop_classify (kern : RadKernel) (guess : ℤ × ℤ) (radInt : ℤ)
    (hkern : ∀ q : ℤ × ℤ, ∃ v, kern q = Except.ok v) :
    ∀ (fuel niter : ℕ) (p : ℤ × ℤ),
      (∃ p' cells, (walkLoop kern guess radInt fuel niter p).2 = WalkExit.converged p' cells) ∨
      (walkLoop kern guess radInt fuel niter p).2 = WalkExit.walkedOff ∨
      (∃ n, (walkLoop kern guess radInt fuel niter p).2 = WalkExit.maxIter n) := by
  intro fuel
  induction fuel with
  | zero =>
    intro niter p
    right; right
    exact ⟨niter + 1, rfl⟩
  | succ n ih =>
    intro niter p
    obtain ⟨cells, hcells⟩ := evalCells_ok_of_total kern hkern p cellOffsets
    rw [walkLoop, hcells]
    dsimp only
    split
    · left; exact ⟨p, cells, rfl⟩
    · split
      · right; left; rfl
      · exact ih _ _

/-- C2: the grid walk executes at most `_MaxIter` = 40 iterations on every
input, and (when the radial-profile kernel raises no exception) exits only
by converging, by the walked-too-far test (squared accumulated shift of the
best pixel from the rounded guess reaching the squared rounded radius), or
by the iteration bound. -/
theorem gridWalk_terminates (kern : RadKernel) (guess : ℤ × ℤ) (radInt : ℤ)
    (hkern : ∀ q : ℤ × ℤ, ∃ v, kern q = Except.ok v) :
    MaxIter = 40 ∧ (gridWalk kern guess radInt).1 ≤ 40 ∧
    ((∃ p cells, (gridWalk kern guess radInt).2 = WalkExit.converged p cells) ∨
     (gridWalk kern guess radInt).2 = WalkExit.walkedOff ∨
     (∃ n, (gridWalk kern guess radInt).2 = WalkExit.maxIter n)) := by
  refine ⟨rfl, ?_, walkLoop_classify kern guess radInt hkern MaxIter 0 guess⟩
  have := walkLoop_count_le kern guess radInt MaxIter 0 guess
  simpa [gridWalk] using this

/-- Witness for `gridWalk_terminates` on a concrete total kernel (constant
asymmetry 1 everywhere) with guess (5,5) and radius 3. -/
theorem gridWalk_terminates_witness :
    MaxIter = 40 ∧
    (gridWalk (fun _ => Except.ok ((1 : ℚ), (0 : ℚ), (0 : ℤ))) (5, 5) 3).1 ≤ 40 ∧
    ((∃ p cells, (gridWalk (fun _ => Except.ok ((1 : ℚ), (0 : ℚ), (0 : ℤ))) (5, 5) 3).2 =
        WalkExit.converged p cells) ∨
     (gridWalk (fun _ => Except.ok ((1 : ℚ), (0 : ℚ), (0 : ℤ))) (5, 5) 3).2 =
        WalkExit.walkedOff ∨
     (∃ n, (gridWalk (fun _ => Except.ok ((1 : ℚ), (0 : ℚ), (0 : ℤ))) (5, 5) 3).2 =
        WalkExit.maxIter n)) :=
  gridWalk_terminates _ _ _ (fun _ => ⟨(1, 0, 0), rfl⟩)

/-! ### C4: error handling at the basicCentroid boundary -/

theorem append_ne_empty (s t : String) (h : s.length ≠ 0) : s ++ t ≠ "" := by
  intro hc
  have hlen := congrArg String.length hc
  rw [String.length_append] at hlen
  simp only [String.length_empty] at hlen
  omega

theorem append3_ne_empty (s t u : String) (h : s.length ≠ 0) : s ++ t ++ u ≠ "" := by
  intro hc
  have hlen := congrArg String.length hc
  rw [String.length_append, String.length_append] at hlen
  simp only [String.length_empty] at hlen
  omega

theorem evalCells_error_source (kern : RadKernel) (p : ℤ × ℤ) :
    ∀ (l : List (ℕ × ℕ)) (e : String), evalCells kern p l = Except.error e →
      ∃ q, kern q = Except.error e := by
  intro l
  induction l with
  | nil => intro e h; simp [evalCells] at h
  | cons c rest ih =>
    intro e h
    rw [evalCells] at h
    cases hk : kern (p.1 + c.1 - 1, p.2 + c.2 - 1) with
    | error e' =>
      rw [hk] at h
      simp only [Except.error.injEq] at h
      exact ⟨_, h ▸ hk⟩
    | ok v =>
      rw [hk] at h
      cases hrest : evalCells kern p rest with
      | error e' =>
        rw [hrest] at h
        simp only [Except.error.injEq] at h
        exact h ▸ ih e' hrest
      | ok vs => rw [hrest] at h; simp at h

theorem walkLoop_kernelFail_source (kern : RadKernel) (guess : ℤ × ℤ) (radInt : ℤ) :
    ∀ (fuel niter : ℕ) (p : ℤ × ℤ) (e : String),
      (walkLoop kern guess radInt fuel niter p).2 = WalkExit.kernelFail e →
      ∃ q, kern q = Except.error e := by
  intro fuel
  induction fuel with
  | zero => intro niter p e h; simp [walkLoop] at h
  | succ n ih =>
    intro niter p e h
    rw [walkLoop] at h
    cases hev : evalCells kern p cellOffsets with
    | error e' =>
      rw [hev] at h
      simp only [WalkExit.kernelFail.injEq] at h
      subst h
      exact evalCells_error_source kern p cellOffsets _ hev
    | ok cells =>
      rw [hev] at h
      dsimp only at h
      split at h
      · simp at h
      · split at h
        · simp at h
        · exact ih _ _ _ h

theorem basicCentroidTry_ok_isOK (rows cols : ℕ) (data : ℕ → ℕ → ℤ)
    (mask : Option (ℕ → ℕ → Bool)) (kern : RadKernel) (pmi : ℚ)
    (ijIndGuess : ℤ × ℤ) (radInt : ℤ) (ccd : CCDInfo) (imStats : Option ImStats)
    (cd : CentroidData)
    (h : basicCentroidTry rows cols data mask kern pmi ijIndGuess radInt ccd imStats =
      Except.ok cd) : cd.isOK = true := by
  rw [basicCentroidTry] at h
  cases hexit : (gridWalk kern ijIndGuess radInt).2 with
  | kernelFail e => rw [hexit] at h; simp at h
  | maxIter n => rw [hexit] at h; simp at h
  | walkedOff => rw [hexit] at h; simp at h
  | converged p cells =>
    rw [hexit] at h
    dsimp only at h
    split at h
    · simp at h
    · split at h
      · simp at h
      · split at h
        · simp at h
        · split at h
          · simp at h
          · simp only [Except.ok.injEq] at h
            rw [← h]
            rfl

theorem basicCentroidTry_error_msg (rows cols : ℕ) (data : ℕ → ℕ → ℤ)
    (mask : Option (ℕ → ℕ → Bool)) (kern : RadKernel) (pmi : ℚ)
    (ijIndGuess : ℤ × ℤ) (radInt : ℤ) (ccd : CCDInfo) (imStats : Option ImStats)
    (e : String)
    (h : basicCentroidTry rows cols data mask kern pmi ijIndGuess radInt ccd imStats =
      Except.error e) :
    (∃ q, kern q = Except.error e) ∨ e ≠ "" := by
  rw [basicCentroidTry] at h
  cases hexit : (gridWalk kern ijIndGuess radInt).2 with
  | kernelFail e' =>
    rw [hexit] at h
    simp only [Except.error.injEq] at h
    exact Or.inl (h ▸ walkLoop_kernelFail_source kern ijIndGuess radInt MaxIter 0 ijIndGuess e' hexit)
  | maxIter n =>
    rw [hexit] at h
    simp only [Except.error.injEq] at h
    exact Or.inr (h ▸ append3_ne_empty _ _ _ (by decide))
  | walkedOff =>
    rw [hexit] at h
    simp only [Except.error.injEq] at h
    exact Or.inr (h ▸ append3_ne_empty _ _ _ (by decide))
  | converged p cells =>
    rw [hexit] at h
    dsimp only at h
    split at h
    · simp only [Except.error.injEq] at h
      exact Or.inr (h ▸ by decide)
    · split at h
      · simp only [Except.error.injEq] at h
        exact Or.inr (h ▸ by decide)
      · split at h
        · simp only [Except.error.injEq] at h
          exact Or.inr (h ▸ by decide)
        · split at h
          · simp only [Except.error.injEq] at h
            exact Or.inr (h ▸ by decide)
          · simp at h

/-- C4: basicCentroid never lets an exception raised inside the search
escape: whenever the initial guess has exactly 2 elements it returns an
`Except.ok` CentroidData, whose message is non-empty whenever isOK is false
(assuming the abstract kernel raises only exceptions with non-empty str, as
every exception the source can meet there does); the sole raise past the
boundary is the ValueError for an initial guess without exactly 2 elements,
which is signalled before the try block. -/
theorem basicCentroid_error_boundary (rows cols : ℕ) (data : ℕ → ℕ → ℤ)
    (mask : Option (ℕ → ℕ → Bool)) (kern : RadKernel) (xyGuess : List ℚ)
    (rad : ℚ) (ccd : CCDInfo) (imStats : Option ImStats) (pmi : ℚ)
    (hkern : ∀ q e, kern q = Except.error e → e ≠ "") :
    (xyGuess.length = 2 →
      ∃ cd, basicCentroid rows cols data mask kern xyGuess rad ccd imStats pmi =
          Except.ok cd ∧ (cd.isOK = false → cd.msgStr ≠ "")) ∧
    (xyGuess.length ≠ 2 →
      ∃ msg, basicCentroid rows cols data mask kern xyGuess rad ccd imStats pmi =
          Except.error msg ∧ msg ≠ "") := by
  constructor
  · intro hlen
    rw [basicCentroid, if_pos hlen]
    dsimp only
    cases htry : basicCentroidTry rows cols data mask kern pmi
        (ijIndFromXYPos pmi (xyGuess.getD 0 0, xyGuess.getD 1 0))
        (pyRound (max rad MinRad)) ccd imStats with
    | ok cd =>
      refine ⟨cd, rfl, ?_⟩
      intro hbad
      rw [basicCentroidTry_ok_isOK _ _ _ _ _ _ _ _ _ _ _ htry] at hbad
      cases hbad
    | error e =>
      refine ⟨_, rfl, ?_⟩
      intro _
      rcases basicCentroidTry_error_msg _ _ _ _ _ _ _ _ _ _ _ htry with ⟨q, hq⟩ | hne
      · exact hkern q _ hq
      · exact hne
  · intro hlen
    rw [basicCentroid, if_neg hlen]
    exact ⟨_, rfl, append3_ne_empty _ _ _ (by decide)⟩

/-- Witness for `basicCentroid_error_boundary`: a concrete total kernel, a
2-element guess, radius 3 and a default CCDInfo. -/
theorem basicCentroid_error_boundary_witness :
    ∃ cd, basicCentroid 3 3 (fun _ _ => 0) none
        (fun _ => Except.ok ((1 : ℚ), (0 : ℚ), (0 : ℤ))) [5, 5] 3
        (CCDInfo.default 0 1 1) none 0 = Except.ok cd ∧
      (cd.isOK = false → cd.msgStr ≠ "") :=
  (basicCentroid_error_boundary 3 3 (fun _ _ => 0) none
    (fun _ => Except.ok ((1 : ℚ), (0 : ℚ), (0 : ℤ))) [5, 5] 3
    (CCDInfo.default 0 1 1) none 0
    (fun _ e h => by simp at h)).1 rfl

/-! ### C3: the separable parabolic refinement -/

/-- The claim's parabolic coefficient `a = (y0 - 2*y1 + y2)/2` for three
colinear samples. -/
def claimFitA (y0 y1 y2 : ℚ) : ℚ := (y0 - 2 * y1 + y2) / 2

/-- The claim's parabolic coefficient `b = (y2 - y0)/2`. -/
def claimFitB (y0 y1 y2 : ℚ) : ℚ := (y2 - y0) / 2

/-- The claim's sub-pixel offset `delta = -b/(2*a)`. -/
def claimDelta (y0 y1 y2 : ℚ) : ℚ :=
  -claimFitB y0 y1 y2 / (2 * claimFitA y0 y1 y2)

theorem fitDI_eq_claim (cells : List ((ℕ × ℕ) × (ℚ × ℚ × ℤ))) :
    fitDI cells =
      claimDelta (cellAsymm cells (0, 1)) (cellAsymm cells (1, 1)) (cellAsymm cells (2, 1)) := by
  have hA : fitAI cells =
      claimFitA (cellAsymm cells (0, 1)) (cellAsymm cells (1, 1)) (cellAsymm cells (2, 1)) := by
    unfold fitAI claimFitA; ring
  have hB : fitBI cells =
      claimFitB (cellAsymm cells (0, 1)) (cellAsymm cells (1, 1)) (cellAsymm cells (2, 1)) := by
    unfold fitBI claimFitB; ring
  rw [fitDI, hA, hB, claimDelta]
  rw [show -(1/2 : ℚ) *
      claimFitB (cellAsymm cells (0, 1)) (cellAsymm cells (1, 1)) (cellAsymm cells (2, 1)) =
      -claimFitB (cellAsymm cells (0, 1)) (cellAsymm cells (1, 1)) (cellAsymm cells (2, 1)) / 2
    from by ring]
  rw [div_div, mul_comm]

theorem fitDJ_eq_claim (cells : List ((ℕ × ℕ) × (ℚ × ℚ × ℤ))) :
    fitDJ cells =
      claimDelta (cellAsymm cells (1, 0)) (cellAsymm cells (1, 1)) (cellAsymm cells (1, 2)) := by
  have hA : fitAJ cells =
      claimFitA (cellAsymm cells (1, 0)) (cellAsymm cells (1, 1)) (cellAsymm cells (1, 2)) := by
    unfold fitAJ claimFitA; ring
  have hB : fitBJ cells =
      claimFitB (cellAsymm cells (1, 0)) (cellAsymm cells (1, 1)) (cellAsymm cells (1, 2)) := by
    unfold fitBJ claimFitB; ring
  rw [fitDJ, hA, hB, claimDelta]
  rw [show -(1/2 : ℚ) *
      claimFitB (cellAsymm cells (1, 0)) (cellAsymm cells (1, 1)) (cellAsymm cells (1, 2)) =
      -claimFitB (cellAsymm cells (1, 0)) (cellAsymm cells (1, 1)) (cellAsymm cells (1, 2)) / 2
    from by ring]
  rw [div_div, mul_comm]

theorem basicCentroidTry_ok_eq (rows cols : ℕ) (data : ℕ → ℕ → ℤ)
    (mask : Option (ℕ → ℕ → Bool)) (kern : RadKernel) (pmi : ℚ)
    (ijIndGuess : ℤ × ℤ) (radInt : ℤ) (ccd : CCDInfo) (imStats : Option ImStats)
    (p : ℤ × ℤ) (cells : List ((ℕ × ℕ) × (ℚ × ℚ × ℤ))) (cd : CentroidData)
    (hexit : (gridWalk kern ijIndGuess radInt).2 = WalkExit.converged p cells)
    (h : basicCentroidTry rows cols data mask kern pmi ijIndGuess radInt ccd imStats =
      Except.ok cd) :
    cd = centroidSuccess rows cols data mask pmi radInt ccd imStats p cells ∧
    fitAI cells ≠ 0 ∧ fitAJ cells ≠ 0 ∧
    0 ≤ cellAsymm cells (1, 1) / fitAI cells ∧
    0 ≤ cellAsymm cells (1, 1) / fitAJ cells := by
  rw [basicCentroidTry, hexit] at h
  dsimp only at h
  split at h
  · simp at h
  · split at h
    · simp at h
    · split at h
      · simp at h
      · split at h
        · simp at h
        · simp only [Except.ok.injEq] at h
          exact ⟨h.symm, by assumption, by assumption,
            not_lt.mp (by assumption), not_lt.mp (by assumption)⟩

/-- C3: when the walk converges with the minimum at the center, the
reported center is the best integer pixel plus the per-axis sub-pixel
offsets of the claim's separable parabolic fit (a = (y0-2y1+y2)/2,
b = (y2-y0)/2, delta = -b/(2a)) computed from the three colinear
center-column samples (i axis) and center-row samples (j axis) only, the
result being converted to the xy position convention. -/
theorem basicCentroid_parabolic_refine (rows cols : ℕ) (data : ℕ → ℕ → ℤ)
    (mask : Option (ℕ → ℕ → Bool)) (kern : RadKernel) (pmi : ℚ)
    (ijIndGuess : ℤ × ℤ) (radInt : ℤ) (ccd : CCDInfo) (imStats : Option ImStats)
    (p : ℤ × ℤ) (cells : List ((ℕ × ℕ) × (ℚ × ℚ × ℤ))) (cd : CentroidData)
    (hexit : (gridWalk kern ijIndGuess radInt).2 = WalkExit.converged p cells)
    (h : basicCentroidTry rows cols data mask kern pmi ijIndGuess radInt ccd imStats =
      Except.ok cd) :
    cd.xyCtr = some (xyPosFromIJPos pmi
      ((p.1 : ℚ) +
        claimDelta (cellAsymm cells (0, 1)) (cellAsymm cells (1, 1)) (cellAsymm cells (2, 1)),
       (p.2 : ℚ) +
        claimDelta (cellAsymm cells (1, 0)) (cellAsymm cells (1, 1)) (cellAsymm cells (1, 2)))) := by
  obtain ⟨hcd, -, -, -, -⟩ :=
    basicCentroidTry_ok_eq rows cols data mask kern pmi ijIndGuess radInt ccd
      imStats p cells cd hexit h
  rw [hcd]
  show some (refinedXYCtr pmi p cells) = _
  rw [refinedXYCtr, fitDI_eq_claim, fitDJ_eq_claim]

/-- A concrete demonstration kernel: asymmetry is the squared distance to
pixel (5,5); counts 100 and 9 valid pixels everywhere. -/
def kernDemo : RadKernel := fun p =>
  Except.ok ((((p.1 - 5 : ℤ) : ℚ)) ^ 2 + (((p.2 - 5 : ℤ) : ℚ)) ^ 2, 100, 9)

/-- The 3x3 gridlet that `kernDemo` yields around (5,5). -/
def demoCells : List ((ℕ × ℕ) × (ℚ × ℚ × ℤ)) :=
  [((0,0), (2, 100, 9)), ((0,1), (1, 100, 9)), ((0,2), (2, 100, 9)),
   ((1,0), (1, 100, 9)), ((1,1), (0, 100, 9)), ((1,2), (1, 100, 9)),
   ((2,0), (2, 100, 9)), ((2,1), (1, 100, 9)), ((2,2), (2, 100, 9))]

theorem demo_evalCells : evalCells kernDemo (5, 5) cellOffsets = Except.ok demoCells := by
  norm_num [evalCells, kernDemo, cellOffsets, demoCells]

theorem demo_walk : gridWalk kernDemo (5, 5) 3 = (1, WalkExit.converged (5, 5) demoCells) := by
  rw [gridWalk, MaxIter, show (40 : ℕ) = 39 + 1 from rfl, walkLoop, demo_evalCells]
  norm_num [minPosition, cellOffsets, cellAsymm, cellLookup, demoCells, Prod.ext_iff]

/-- A CCDInfo with no saturation level configured. -/
def ccdDemoNone : CCDInfo := { bias := 0, readNoise := 1, ccdGain := 1, satLevel := none }

theorem demo_try : basicCentroidTry 0 0 (fun _ _ => 0) none kernDemo 0 (5, 5) 3
    ccdDemoNone none =
    Except.ok (centroidSuccess 0 0 (fun _ _ => 0) none 0 3 ccdDemoNone none (5, 5) demoCells) := by
  rw [basicCentroidTry]
  rw [show (gridWalk kernDemo (5, 5) 3).2 = WalkExit.converged (5, 5) demoCells from by
    rw [demo_walk]]
  norm_num [fitAI, fitAJ, cellAsymm, cellLookup, demoCells, Prod.ext_iff]

/-- Witness for `basicCentroid_parabolic_refine` on the concrete kernel
`kernDemo` (walk converges immediately at (5,5); both deltas are 0). -/
theorem basicCentroid_parabolic_refine_witness :
    (centroidSuccess 0 0 (fun _ _ => 0) none 0 3 ccdDemoNone none (5, 5) demoCells).xyCtr =
      some (xyPosFromIJPos 0 ((5 : ℚ) + claimDelta 1 0 1, (5 : ℚ) + claimDelta 1 0 1)) := by
  have h := basicCentroid_parabolic_refine 0 0 (fun _ _ => 0) none kernDemo 0
    (5, 5) 3 ccdDemoNone none (5, 5) demoCells _
    (by rw [demo_walk]) demo_try
  simpa [cellAsymm, cellLookup, demoCells, Prod.ext_iff] using h

/-! ### C8: the per-axis uncertainty estimate -/

/-- C8: on every successful search the stored per-axis squared
uncertainties are `asymmetry_center / a_axis` for the two parabolic
curvatures (x paired with the j axis, y with the i axis, in that order as
the source's `xyErr = (jErr, iErr)`), both radicands are non-negative, and
the per-axis uncertainties the source reports — their square roots — square
back to them. -/
theorem basicCentroid_xyErr (rows cols : ℕ) (data : ℕ → ℕ → ℤ)
    (mask : Option (ℕ → ℕ → Bool)) (kern : RadKernel) (pmi : ℚ)
    (ijIndGuess : ℤ × ℤ) (radInt : ℤ) (ccd : CCDInfo) (imStats : Option ImStats)
    (p : ℤ × ℤ) (cells : List ((ℕ × ℕ) × (ℚ × ℚ × ℤ))) (cd : CentroidData)
    (hexit : (gridWalk kern ijIndGuess radInt).2 = WalkExit.converged p cells)
    (h : basicCentroidTry rows cols data mask kern pmi ijIndGuess radInt ccd imStats =
      Except.ok cd) :
    cd.xyErrSq = some (cellAsymm cells (1, 1) / fitAJ cells,
      cellAsymm cells (1, 1) / fitAI cells) ∧
    fitAI cells =
      claimFitA (cellAsymm cells (0, 1)) (cellAsymm cells (1, 1)) (cellAsymm cells (2, 1)) ∧
    fitAJ cells =
      claimFitA (cellAsymm cells (1, 0)) (cellAsymm cells (1, 1)) (cellAsymm cells (1, 2)) ∧
    0 ≤ cellAsymm cells (1, 1) / fitAJ cells ∧
    0 ≤ cellAsymm cells (1, 1) / fitAI cells ∧
    Real.sqrt ((cellAsymm cells (1, 1) / fitAJ cells : ℚ)) ^ 2 =
      ((cellAsymm cells (1, 1) / fitAJ cells : ℚ) : ℝ) ∧
    Real.sqrt ((cellAsymm cells (1, 1) / fitAI cells : ℚ)) ^ 2 =
      ((cellAsymm cells (1, 1) / fitAI cells : ℚ) : ℝ) := by
  obtain ⟨hcd, hai, haj, hnnI, hnnJ⟩ :=
    basicCentroidTry_ok_eq rows cols data mask kern pmi ijIndGuess radInt ccd
      imStats p cells cd hexit h
  have hAeq : fitAI cells =
      claimFitA (cellAsymm cells (0, 1)) (cellAsymm cells (1, 1)) (cellAsymm cells (2, 1)) := by
    unfold fitAI claimFitA; ring
  have hAJeq : fitAJ cells =
      claimFitA (cellAsymm cells (1, 0)) (cellAsymm cells (1, 1)) (cellAsymm cells (1, 2)) := by
    unfold fitAJ claimFitA; ring
  have hnnJR : (0 : ℝ) ≤ ((cellAsymm cells (1, 1) / fitAJ cells : ℚ) : ℝ) := by
    exact_mod_cast hnnJ
  have hnnIR : (0 : ℝ) ≤ ((cellAsymm cells (1, 1) / fitAI cells : ℚ) : ℝ) := by
    exact_mod_cast hnnI
  exact ⟨by rw [hcd]; rfl, hAeq, hAJeq, hnnJ, hnnI,
    Real.sq_sqrt hnnJR, Real.sq_sqrt hnnIR⟩

theorem demo_try_eval : basicCentroidTry 0 0 (fun _ _ => 0) none kernDemo 0 (5, 5) 3
    ccdDemoNone none =
    Except.ok (centroidSuccess 0 0 (fun _ _ => 0) none 0 3 ccdDemoNone none (5, 5) demoCells) :=
  demo_try

/-- Witness for `basicCentroid_xyErr` on the concrete `kernDemo` run (both
curvatures 1, center asymmetry 0, so both stored radicands are 0). -/
theorem basicCentroid_xyErr_witness :
    (centroidSuccess 0 0 (fun _ _ => 0) none 0 3 ccdDemoNone none (5, 5) demoCells).xyErrSq =
      some ((0 : ℚ) / 1, (0 : ℚ) / 1) ∧
    ((0 : ℚ) ≤ 0 / 1) := by
  have h := basicCentroid_xyErr 0 0 (fun _ _ => 0) none kernDemo 0 (5, 5) 3
    ccdDemoNone none (5, 5) demoCells _ (by rw [demo_walk]) demo_try
  obtain ⟨h1, -, -, h4, -, -, -⟩ := h
  constructor
  · rw [h1]
    norm_num [cellAsymm, cellLookup, demoCells, fitAI, fitAJ, Prod.ext_iff]
  · norm_num

/-! ### C10: the saturated-pixel count and the satLevel default -/

theorem basicCentroid_ok_success (rows cols : ℕ) (data : ℕ → ℕ → ℤ)
    (mask : Option (ℕ → ℕ → Bool)) (kern : RadKernel) (xyGuess : List ℚ)
    (rad : ℚ) (ccd : CCDInfo) (imStats : Option ImStats) (pmi : ℚ)
    (cd : CentroidData)
    (h : basicCentroid rows cols data mask kern xyGuess rad ccd imStats pmi =
      Except.ok cd) (hOK : cd.isOK = true) :
    xyGuess.length = 2 ∧ ∃ p cells,
      (gridWalk kern (ijIndFromXYPos pmi (xyGuess.getD 0 0, xyGuess.getD 1 0))
        (pyRound (max rad MinRad))).2 = WalkExit.converged p cells ∧
      cd = centroidSuccess rows cols data mask pmi (pyRound (max rad MinRad))
        ccd imStats p cells := by
  by_cases hlen : xyGuess.length = 2
  · refine ⟨hlen, ?_⟩
    rw [basicCentroid, if_pos hlen] at h
    dsimp only at h
    cases htry : basicCentroidTry rows cols data mask kern pmi
        (ijIndFromXYPos pmi (xyGuess.getD 0 0, xyGuess.getD 1 0))
        (pyRound (max rad MinRad)) ccd imStats with
    | error e =>
      rw [htry] at h
      simp only [Except.ok.injEq] at h
      rw [← h] at hOK
      simp [CentroidData.failed] at hOK
    | ok cd' =>
      rw [htry] at h
      simp only [Except.ok.injEq] at h
      subst h
      cases hexit : (gridWalk kern (ijIndFromXYPos pmi (xyGuess.getD 0 0, xyGuess.getD 1 0))
          (pyRound (max rad MinRad))).2 with
      | kernelFail e => rw [basicCentroidTry, hexit] at htry; simp at htry
      | maxIter n => rw [basicCentroidTry, hexit] at htry; simp at htry
      | walkedOff => rw [basicCentroidTry, hexit] at htry; simp at htry
      | converged p cells =>
        obtain ⟨hcd, -, -, -, -⟩ :=
          basicCentroidTry_ok_eq rows cols data mask kern pmi _ _ ccd imStats
            p cells cd' hexit htry
        exact ⟨p, cells, rfl, hcd⟩
  · rw [basicCentroid, if_neg hlen] at h
    simp at h

/-- C10: the CCDInfo constructor's saturation default is 2^16 - 1 = 65535 (not
"unknown"), so every successful basicCentroid result obtained with a
default-constructed CCDInfo carries `nSat = some n` with `n` the (inherently
non-negative) count of unmasked pixels at or above the saturation level
inside the search-radius disk around the refined center; and a successful
result carries `nSat = none` only when the caller's CCDInfo was explicitly
built with `satLevel = none`. -/
theorem basicCentroid_nSat_default (rows cols : ℕ) (data : ℕ → ℕ → ℤ)
    (mask : Option (ℕ → ℕ → Bool)) (kern : RadKernel) (xyGuess : List ℚ)
    (rad : ℚ) (bias rn gain : ℚ) (imStats : Option ImStats) (pmi : ℚ) :
    (CCDInfo.default bias rn gain).satLevel = some 65535 ∧
    (∀ cd, basicCentroid rows cols data mask kern xyGuess rad
        (CCDInfo.default bias rn gain) imStats pmi = Except.ok cd →
      cd.isOK = true →
      ∃ xy, cd.xyCtr = some xy ∧
        cd.nSat = some (nSatCount rows cols data mask pmi xy
          (pyRound (max rad MinRad)) 65535)) ∧
    (∀ (ccd : CCDInfo) (cd : CentroidData),
      basicCentroid rows cols data mask kern xyGuess rad ccd imStats pmi =
        Except.ok cd →
      cd.isOK = true → cd.nSat = none → ccd.satLevel = none) := by
  refine ⟨by norm_num [CCDInfo.default], ?_, ?_⟩
  · intro cd h hOK
    obtain ⟨-, p, cells, -, hcd⟩ :=
      basicCentroid_ok_success rows cols data mask kern xyGuess rad
        (CCDInfo.default bias rn gain) imStats pmi cd h hOK
    subst hcd
    refine ⟨refinedXYCtr pmi p cells, rfl, ?_⟩
    show nSatOpt rows cols data mask pmi (refinedXYCtr pmi p cells)
      (pyRound (max rad MinRad)) (CCDInfo.default bias rn gain) = _
    rw [nSatOpt]
    norm_num [CCDInfo.default]
  · intro ccd cd h hOK hnone
    obtain ⟨-, p, cells, -, hcd⟩ :=
      basicCentroid_ok_success rows cols data mask kern xyGuess rad ccd
        imStats pmi cd h hOK
    subst hcd
    have : nSatOpt rows cols data mask pmi (refinedXYCtr pmi p cells)
        (pyRound (max rad MinRad)) ccd = none := hnone
    rw [nSatOpt] at this
    cases hsat : ccd.satLevel with
    | none => rfl
    | some sat => rw [hsat] at this; simp at this

theorem demo_basicCentroid : basicCentroid 3 3 (fun _ _ => 0) none kernDemo
    [5, 5] 3 (CCDInfo.default 0 1 1) none 0 =
    Except.ok (centroidSuccess 3 3 (fun _ _ => 0) none 0 3
      (CCDInfo.default 0 1 1) none (5, 5) demoCells) := by
  rw [basicCentroid, if_pos (show ([5, 5] : List ℚ).length = 2 from rfl)]
  dsimp only
  rw [show ijIndFromXYPos 0 (([5, 5] : List ℚ).getD 0 0, ([5, 5] : List ℚ).getD 1 0) =
      ((5 : ℤ), (5 : ℤ)) from by
    norm_num [ijIndFromXYPos, pyRound]]
  rw [show pyRound (max (3 : ℚ) MinRad) = 3 from by norm_num [pyRound, MinRad]]
  rw [basicCentroidTry]
  rw [show (gridWalk kernDemo (5, 5) 3).2 = WalkExit.converged (5, 5) demoCells from by
    rw [demo_walk]]
  norm_num [fitAI, fitAJ, cellAsymm, cellLookup, demoCells, Prod.ext_iff]

/-- Witness for `basicCentroid_nSat_default`: the successful concrete
`kernDemo` run with a default-constructed CCDInfo carries a counted
(hence non-negative) nSat. -/
theorem basicCentroid_nSat_default_witness :
    ∃ xy, (centroidSuccess 3 3 (fun _ _ => 0) none 0 3
        (CCDInfo.default 0 1 1) none (5, 5) demoCells).xyCtr = some xy ∧
      (centroidSuccess 3 3 (fun _ _ => 0) none 0 3
        (CCDInfo.default 0 1 1) none (5, 5) demoCells).nSat =
        some (nSatCount 3 3 (fun _ _ => 0) none 0 xy (pyRound (max 3 MinRad)) 65535) :=
  (basicCentroid_nSat_default 3 3 (fun _ _ => 0) none kernDemo [5, 5] 3
    0 1 1 none 0).2.1 _ demo_basicCentroid rfl

/-! ### C6: the inner weighted linear least squares of the shape fitter -/

theorem wsum_fitResid (a b : ℚ) :
    ∀ (ws ys ss : List ℚ), ws.length = ys.length → ss.length = ys.length →
      (listMulQ ws (fitResid a b ys ss)).sum =
        (listMulQ ws ys).sum - a * (listMulQ ws ss).sum - b * ws.sum := by
  intro ws
  induction ws with
  | nil =>
    intro ys ss _ _
    simp [listMulQ, fitResid]
  | cons w ws ih =>
    intro ys ss h1 h2
    cases ys with
    | nil => simp at h1
    | cons y ys' =>
      cases ss with
      | nil => simp at h2
      | cons s ss' =>
        simp only [listMulQ, fitResid, List.zipWith_cons_cons, List.sum_cons] at *
        rw [ih ys' ss' (by simpa using h1) (by simpa using h2)]
        ring

/-- C6: whenever `_fitIter` succeeds at a width parameter, the returned
template is the evaluated two-Gaussian profile, the returned amplitude and
background satisfy both pixel-count-weighted normal equations of the model
`predicted = bkgnd + ampl * seeProf` (so they are the weighted
least-squares solution), and the returned chi-square is
`sum(pixelCount * residual^2) / sum(pixelCount)`; a degenerate 2x2
normal-equations determinant makes it fail with the numerical
RuntimeError instead. -/
theorem fitIter_lsq (e : ℚ → ℚ) (radProfL : List ℚ) (nPtsL : List ℕ)
    (radWeightL radSqL : List ℚ) (sumNPts sumRadProf wp : ℚ)
    (hlen1 : nPtsL.length = radProfL.length)
    (hlen2 : radSqL.length = radProfL.length)
    (hwt : radWeightL = natListQ nPtsL)
    (hs0 : sumNPts = (natListQ nPtsL).sum)
    (hsy : sumRadProf = wsum (natListQ nPtsL) radProfL) :
    (∀ a b χ s,
      fitIter e radProfL nPtsL radWeightL radSqL sumNPts sumRadProf wp =
        Except.ok (a, b, χ, s) →
      s = seeProfList e radSqL wp ∧
      (listMulQ (natListQ nPtsL) (fitResid a b radProfL (intListQ s))).sum = 0 ∧
      (listMulQ (listMulQ (natListQ nPtsL) (intListQ s))
        (fitResid a b radProfL (intListQ s))).sum = 0 ∧
      χ = (listMulQ (natListQ nPtsL)
        ((fitResid a b radProfL (intListQ s)).map (fun d => d ^ 2))).sum / sumNPts) ∧
    (sumNPts * (listMulQ (listMulQ (natListQ nPtsL) (intListQ (seeProfList e radSqL wp)))
        (intListQ (seeProfList e radSqL wp))).sum -
      ((listMulQ (natListQ nPtsL) (intListQ (seeProfList e radSqL wp))).sum) ^ 2 = 0 →
      fitIter e radProfL nPtsL radWeightL radSqL sumNPts sumRadProf wp =
        Except.error ("Could not compute shape: division by zero")) := by
  have hlenN : (natListQ nPtsL).length = radProfL.length := by
    rw [natListQ, List.length_map, hlen1]
  have hlenS : (intListQ (seeProfList e radSqL wp)).length = radProfL.length := by
    rw [intListQ, List.length_map, seeProfList, List.length_map, hlen2]
  have hlenNS : (listMulQ (natListQ nPtsL) (intListQ (seeProfList e radSqL wp))).length =
      radProfL.length := by
    rw [listMulQ, List.length_zipWith, hlenN, hlenS, min_self]
  constructor
  · intro a b χ s h
    rw [fitIter] at h
    split at h
    · simp at h
    · split at h
      · simp at h
      · simp only [Except.ok.injEq, Prod.mk.injEq] at h
        obtain ⟨ha, hb, hχ, hs⟩ := h
        subst hs
        subst ha
        subst hb
        subst hχ
        rename_i hdisc hS0
        rw [wsum] at hsy
        rw [hwt]
        refine ⟨rfl, ?_, ?_, rfl⟩
        · rw [wsum_fitResid _ _ _ _ _ hlenN hlenS, ← hs0, ← hsy]
          field_simp
          ring
        · rw [wsum_fitResid _ _ _ _ _ hlenNS hlenS]
          field_simp
          ring
  · intro hdisc
    simp only [fitIter]
    rw [if_pos hdisc]

/-- A concrete rational stand-in for num.exp used by the concrete fitter
runs below; it only needs values at the finitely many arguments those runs
evaluate (num.exp itself has no rational embedding, and the fitter theorems
hold for every exponential function). -/
def expDemo : ℚ → ℚ := fun x =>
  if x = -(1/2 : ℚ) then 11/4096
  else if x = -2 then 11/2048
  else if x = -6728/13689 then 11/4096
  else if x = -26912/13689 then 209/40960
  else if x = -6728/13225 then 11/4096
  else if x = -26912/13225 then 209/40960
  else 0

theorem fitIter_demo_eval :
    fitIter expDemo [0, 10, 21] [1, 1, 1] (natListQ [1, 1, 1]) [0, 1, 4] 3 31 1 =
      Except.ok (1, 0, 0, [0, 10, 21]) := by
  norm_num [fitIter, seeProfList, seeProfFn, expDemo, pyTrunc, intListQ, natListQ,
    listMulQ, fitResid, DMax, Int.floor_eq_iff]

/-- Witness for `fitIter_lsq`: a concrete profile where the fit is exact
(amplitude 1, background 0, chi-square 0) and both normal equations hold. -/
theorem fitIter_lsq_witness :
    ([0, 10, 21] : List ℤ) = seeProfList expDemo [0, 1, 4] 1 ∧
    (listMulQ (natListQ [1, 1, 1])
      (fitResid 1 0 [0, 10, 21] (intListQ [0, 10, 21]))).sum = 0 ∧
    (listMulQ (listMulQ (natListQ [1, 1, 1]) (intListQ [0, 10, 21]))
      (fitResid 1 0 [0, 10, 21] (intListQ [0, 10, 21]))).sum = 0 ∧
    (0 : ℚ) = (listMulQ (natListQ [1, 1, 1])
      ((fitResid 1 0 [0, 10, 21] (intListQ [0, 10, 21])).map (fun d => d ^ 2))).sum / 3 := by
  have h := (fitIter_lsq expDemo [0, 10, 21] [1, 1, 1] (natListQ [1, 1, 1])
    [0, 1, 4] 3 31 1 rfl rfl rfl
    (by norm_num [natListQ])
    (by norm_num [wsum, listMulQ, natListQ])).1 1 0 0 [0, 10, 21] fitIter_demo_eval
  exact ⟨h.1, h.2.1, h.2.2.1, h.2.2.2⟩

/-! ### C9: the off-center width correction of starShape -/

/-- C9: starShape corrects the fitted width for an off-center profile
anchor: with `d^2 = starOffSq` the squared per-axis-rounding Euclidean
offset between the supplied center and the nearest pixel center, and
sigma_raw^2 = (FWHMPerSigma * rawFWHM)^2 taken from the grid-fit FWHM, the
reported result carries the radicand
`corrSigSq = sigma_raw^2 - d^2/2` (the source reports
`fwhm = sqrt(corrSigSq)/FWHMPerSigma`), and the operation fails with the
math-domain error exactly when the correction drives the radicand
negative. -/
theorem starShape_offCenterCorrection (e : ℚ → ℚ) (fps pmi : ℚ)
    (radProfL : List ℚ) (nPtsL : List ℕ) (xyCtr : ℚ × ℚ) (rad : ℚ)
    (predFWHM : Option ℚ) (gs : StarShapeData)
    (hfit : fitRadProfile e fps radProfL nPtsL
      (predFWHM.getD ((pyRound (max rad SSMinRad) : ℤ) : ℚ)) = Except.ok gs) :
    ((fps * gs.fwhm) ^ 2 - (1/2) * starOffSq pmi xyCtr < 0 →
      starShape e fps pmi radProfL nPtsL xyCtr rad predFWHM =
        Except.error ("math domain error")) ∧
    (0 ≤ (fps * gs.fwhm) ^ 2 - (1/2) * starOffSq pmi xyCtr →
      starShape e fps pmi radProfL nPtsL xyCtr rad predFWHM =
        Except.ok
          { ampl := gs.ampl, bkgnd := gs.bkgnd, chiSq := gs.chiSq,
            corrSigSq := (fps * gs.fwhm) ^ 2 - (1/2) * starOffSq pmi xyCtr }) := by
  constructor
  · intro hneg
    rw [starShape]
    dsimp only
    rw [hfit]
    dsimp only
    rw [if_pos hneg]
  · intro hnn
    rw [starShape]
    dsimp only
    rw [hfit]
    dsimp only
    rw [if_neg (not_lt.mpr hnn)]

/-! ### C5: starShape raises its numeric errors instead of capturing them -/

theorem append4_ne_empty (s t u v : String) (h : s.length ≠ 0) :
    s ++ t ++ u ++ v ≠ "" := by
  intro hc
  have hlen := congrArg String.length hc
  rw [String.length_append, String.length_append, String.length_append] at hlen
  simp only [String.length_empty] at hlen
  omega

theorem fitIter_error_msg (e : ℚ → ℚ) (radProfL : List ℚ) (nPtsL : List ℕ)
    (radWeightL radSqL : List ℚ) (sumNPts sumRadProf wp : ℚ) (msg : String)
    (h : fitIter e radProfL nPtsL radWeightL radSqL sumNPts sumRadProf wp =
      Except.error msg) : msg ≠ "" := by
  rw [fitIter] at h
  split at h
  · simp only [Except.error.injEq] at h
    exact h ▸ by decide
  · split at h
    · simp only [Except.error.injEq] at h
      exact h ▸ by decide
    · simp at h

theorem fitWalk_error_msg (e : ℚ → ℚ) (wpArr : List ℚ) (radProfL : List ℚ)
    (nPtsL : List ℕ) (radWeightL radSqL : List ℚ) (sumNPts sumRadProf : ℚ) :
    ∀ (fuel : ℕ) (wpInd direc : ℤ) (iterNum : ℕ) (tbl : List ℚ) (msg : String),
      fitWalk e wpArr radProfL nPtsL radWeightL radSqL sumNPts sumRadProf
        fuel wpInd direc iterNum tbl = Except.error msg → msg ≠ "" := by
  intro fuel
  induction fuel with
  | zero =>
    intro wpInd direc iterNum tbl msg h
    rw [fitWalk] at h
    simp only [Except.error.injEq] at h
    exact h ▸ by decide
  | succ n ih =>
    intro wpInd direc iterNum tbl msg h
    rw [fitWalk] at h
    cases hit : fitIter e radProfL nPtsL radWeightL radSqL sumNPts sumRadProf
        (wpArr.getD wpInd.toNat 0) with
    | error m =>
      rw [hit] at h
      simp only [Except.error.injEq] at h
      exact h ▸ fitIter_error_msg _ _ _ _ _ _ _ _ _ hit
    | ok v =>
      obtain ⟨a, b, χ, s⟩ := v
      rw [hit] at h
      dsimp only at h
      split at h
      · split at h
        · exact ih _ _ _ _ _ h
        · simp only [Except.error.injEq] at h
          exact h ▸ append4_ne_empty _ _ _ _ (by decide)
      · split at h
        · split at h
          · split at h
            · exact ih _ _ _ _ _ h
            · simp only [Except.error.injEq] at h
              exact h ▸ append4_ne_empty _ _ _ _ (by decide)
          · split at h
            · exact ih _ _ _ _ _ h
            · simp only [Except.error.injEq] at h
              exact h ▸ append4_ne_empty _ _ _ _ (by decide)
        · split at h
          · simp at h
          · split at h
            · exact ih _ _ _ _ _ h
            · simp only [Except.error.injEq] at h
              exact h ▸ append4_ne_empty _ _ _ _ (by decide)

theorem fitRadProfile_error_msg (e : ℚ → ℚ) (fps : ℚ) (radProfL : List ℚ)
    (nPtsL : List ℕ) (predFWHM : ℚ) (msg : String)
    (h : fitRadProfile e fps radProfL nPtsL predFWHM = Except.error msg) :
    msg ≠ "" := by
  rw [fitRadProfile] at h
  cases hwalk : fitWalk e (makeWPArr fps) radProfL nPtsL (natListQ nPtsL)
      (radSqByRadInd radProfL.length) (natListQ nPtsL).sum
      (wsum (natListQ nPtsL) radProfL) ((makeWPArr fps).length + 4)
      (min (max 1 (pyTrunc (wpIndFromFWHM predFWHM + 1/2)))
        (((makeWPArr fps).length : ℤ) - 2)) 1 0
      (List.replicate (makeWPArr fps).length 0) with
  | error m =>
    rw [hwalk] at h
    simp only [Except.error.injEq] at h
    exact h ▸ fitWalk_error_msg _ _ _ _ _ _ _ _ _ _ _ _ _ _ hwalk
  | ok wt =>
    obtain ⟨w, tbl⟩ := wt
    rw [hwalk] at h
    dsimp only at h
    split at h
    · simp only [Except.error.injEq] at h
      exact h ▸ by decide
    · split at h
      · simp only [Except.error.injEq] at h
        exact h ▸ by decide
      · cases hit : fitIter e radProfL nPtsL (natListQ nPtsL)
            (radSqByRadInd radProfL.length) (natListQ nPtsL).sum
            (wsum (natListQ nPtsL) radProfL)
            (wpFromFWHM fps (fwhmFromWPInd ((w : ℚ) - 1/2 *
              ((1/2 : ℚ) * (tbl.getD (w + 1).toNat 0 - tbl.getD (w - 1).toNat 0)) /
              ((1/2 : ℚ) * (tbl.getD (w + 1).toNat 0 - 2 * tbl.getD w.toNat 0 +
                tbl.getD (w - 1).toNat 0))))) with
        | error m =>
          rw [hit] at h
          simp only [Except.error.injEq] at h
          exact h ▸ fitIter_error_msg _ _ _ _ _ _ _ _ _ hit
        | ok v =>
          obtain ⟨a, b, χ, s⟩ := v
          rw [hit] at h
          simp at h

/-- C5 counterexample: on a concrete input (an all-masked radial profile:
every entry empty) the width-parameter fit hits the degenerate
normal-equations determinant, and `starShape` RAISES the resulting
RuntimeError to its caller instead of returning a non-throwing result
object — indeed its result type (StarShapeData) has no isOK field at all,
and the function body contains no handler. -/
theorem starShape_raises_counterexample :
    starShape expDemo 2 0 [] [] (3, 7) 3 (some 3) =
      Except.error ("Could not compute shape: division by zero") := by
  have hnil : ∀ wp : ℚ, fitIter expDemo [] [] (natListQ [])
      (radSqByRadInd ([] : List ℚ).length) (natListQ []).sum
      (wsum (natListQ []) []) wp =
      Except.error ("Could not compute shape: division by zero") := by
    intro wp
    norm_num [fitIter, seeProfList, radSqByRadInd, wsum, intListQ, natListQ, listMulQ]
  rw [starShape, fitRadProfile]
  dsimp only
  rw [show ((makeWPArr 2).length + 4) = 119 + 1 from by
    rw [makeWPArr, List.length_map, List.length_range, wpArrLen_eq]]
  rw [fitWalk, hnil]

/-- C5 as amended: every error raised inside the width-parameter fit
(table-bounds exit, degenerate determinant, degenerate final parabola)
propagates out of `starShape` unchanged — starShape has no handler and its
result type carries no isOK flag — and every such propagated message is
non-empty. -/
theorem starShape_error_propagation (e : ℚ → ℚ) (fps pmi : ℚ)
    (radProfL : List ℚ) (nPtsL : List ℕ) (xyCtr : ℚ × ℚ) (rad : ℚ)
    (predFWHM : Option ℚ) :
    (∀ msg, fitRadProfile e fps radProfL nPtsL
        (predFWHM.getD ((pyRound (max rad SSMinRad) : ℤ) : ℚ)) = Except.error msg →
      starShape e fps pmi radProfL nPtsL xyCtr rad predFWHM = Except.error msg) ∧
    (∀ msg, starShape e fps pmi radProfL nPtsL xyCtr rad predFWHM =
        Except.error msg → msg ≠ "") := by
  constructor
  · intro msg hfit
    rw [starShape]
    dsimp only
    rw [hfit]
  · intro msg h
    rw [starShape] at h
    dsimp only at h
    cases hfit : fitRadProfile e fps radProfL nPtsL
        (predFWHM.getD ((pyRound (max rad SSMinRad) : ℤ) : ℚ)) with
    | error m =>
      rw [hfit] at h
      simp only [Except.error.injEq] at h
      exact h ▸ fitRadProfile_error_msg _ _ _ _ _ _ hfit
    | ok gs =>
      rw [hfit] at h
      dsimp only at h
      split at h
      · simp only [Except.error.injEq] at h
        exact h ▸ by decide
      · simp at h

/-- Witness for `starShape_error_propagation`: the degenerate-determinant
RuntimeError of the fit propagates out of a concrete starShape call
unchanged. -/
theorem starShape_error_propagation_witness :
    starShape expDemo 2 (1/2) [] [] (1, 1) 3 (some 3) =
      Except.error ("Could not compute shape: division by zero") := by
  have hfit : fitRadProfile expDemo 2 [] []
      (((some (3 : ℚ)).getD ((pyRound (max (3 : ℚ) SSMinRad) : ℤ) : ℚ))) =
      Except.error ("Could not compute shape: division by zero") := by
    have hnil : ∀ wp : ℚ, fitIter expDemo [] [] (natListQ [])
        (radSqByRadInd ([] : List ℚ).length) (natListQ []).sum
        (wsum (natListQ []) []) wp =
        Except.error ("Could not compute shape: division by zero") := by
      intro wp
      norm_num [fitIter, seeProfList, radSqByRadInd, wsum, intListQ, natListQ, listMulQ]
    rw [fitRadProfile]
    dsimp only
    rw [show ((makeWPArr 2).length + 4) = 119 + 1 from by
      rw [makeWPArr, List.length_map, List.length_range, wpArrLen_eq]]
    rw [fitWalk, hnil]
  exact (starShape_error_propagation expDemo 2 (1/2) [] [] (1, 1) 3 (some 3)).1 _ hfit

theorem getD_replicate_lt : ∀ (n i : ℕ) (v d : ℚ), i < n →
    (List.replicate n v).getD i d = v := by
  intro n
  induction n with
  | zero => intro i v d h; omega
  | succ m ih =>
    intro i v d h
    cases i with
    | zero => rfl
    | succ k => exact ih k v d (by omega)

theorem getD_set_self_q : ∀ (l : List ℚ) (i : ℕ) (v d : ℚ), i < l.length →
    (l.set i v).getD i d = v := by
  intro l
  induction l with
  | nil => intro i v d h; simp at h
  | cons x xs ih =>
    intro i v d h
    cases i with
    | zero => rfl
    | succ k => exact ih k v d (by simpa using Nat.lt_of_succ_lt_succ h)

theorem getD_set_ne_q : ∀ (l : List ℚ) (i j : ℕ) (v d : ℚ), i ≠ j →
    (l.set i v).getD j d = l.getD j d := by
  intro l
  induction l with
  | nil => intro i j v d h; rfl
  | cons x xs ih =>
    intro i j v d h
    cases i with
    | zero =>
      cases j with
      | zero => omega
      | succ k => rfl
    | succ m =>
      cases j with
      | zero => rfl
      | succ k => exact ih m k v d (by omega)

theorem demo_wp4 : (makeWPArr 29).getD 4 0 = 1 := by
  rw [makeWPArr, getD_range_map _ _ _ (by rw [wpArrLen_eq]; norm_num)]
  norm_num [wpFromFWHM, fwhmFromWPInd, FWHMMax, FWHMDelta]

theorem demo_wp5 : (makeWPArr 29).getD 5 0 = 13456/13225 := by
  rw [makeWPArr, getD_range_map _ _ _ (by rw [wpArrLen_eq]; norm_num)]
  norm_num [wpFromFWHM, fwhmFromWPInd, FWHMMax, FWHMDelta]

theorem demo_wp3 : (makeWPArr 29).getD 3 0 = 13456/13689 := by
  rw [makeWPArr, getD_range_map _ _ _ (by rw [wpArrLen_eq]; norm_num)]
  norm_num [wpFromFWHM, fwhmFromWPInd, FWHMMax, FWHMDelta]

theorem demo_fit4 : fitIter expDemo [0, 10, 21, 0, 0] [1, 1, 1, 0, 0]
    [1, 1, 1, 0, 0] [0, 1, 4, 9, 16] 3 31 1 =
    Except.ok (1, 0, 0, [0, 10, 21, 0, 2]) := by
  norm_num [fitIter, seeProfList, seeProfFn, expDemo, pyTrunc, intListQ,
    natListQ, listMulQ, fitResid, DMax, Int.floor_eq_iff]

theorem demo_fit5 : fitIter expDemo [0, 10, 21, 0, 0] [1, 1, 1, 0, 0]
    [1, 1, 1, 0, 0] [0, 1, 4, 9, 16] 3 31 (13456/13225) =
    Except.ok (21/20, -(1/6), 1/18, [0, 10, 20, 0, 2]) := by
  norm_num [fitIter, seeProfList, seeProfFn, expDemo, pyTrunc, intListQ,
    natListQ, listMulQ, fitResid, DMax, Int.floor_eq_iff]

theorem demo_fit3 : fitIter expDemo [0, 10, 21, 0, 0] [1, 1, 1, 0, 0]
    [1, 1, 1, 0, 0] [0, 1, 4, 9, 16] 3 31 (13456/13689) =
    Except.ok (21/20, -(1/6), 1/18, [0, 10, 20, 0, 2]) := by
  norm_num [fitIter, seeProfList, seeProfFn, expDemo, pyTrunc, intListQ,
    natListQ, listMulQ, fitResid, DMax, Int.floor_eq_iff]

theorem radSq5 : radSqByRadInd 5 = [0, 1, 4, 9, 16] := by
  norm_num [radSqByRadInd, List.range_succ, List.range_zero]

theorem demo_wp3g : (makeWPArr 29)[(3 : ℕ)]?.getD (0 : ℚ) = 13456/13689 := by
  rw [← List.getD_eq_getElem?_getD]
  exact demo_wp3

theorem demo_wp4g : (makeWPArr 29)[(4 : ℕ)]?.getD (0 : ℚ) = 1 := by
  rw [← List.getD_eq_getElem?_getD]
  exact demo_wp4

theorem demo_wp5g : (makeWPArr 29)[(5 : ℕ)]?.getD (0 : ℚ) = 13456/13225 := by
  rw [← List.getD_eq_getElem?_getD]
  exact demo_wp5

theorem demo_wp3e (h : 3 < (makeWPArr 29).length) :
    (makeWPArr 29)[(3 : ℕ)] = 13456/13689 := by
  rw [← List.getD_eq_getElem (makeWPArr 29) (0 : ℚ) h]
  exact demo_wp3

theorem demo_wp4e (h : 4 < (makeWPArr 29).length) :
    (makeWPArr 29)[(4 : ℕ)] = 1 := by
  rw [← List.getD_eq_getElem (makeWPArr 29) (0 : ℚ) h]
  exact demo_wp4

theorem demo_wp5e (h : 5 < (makeWPArr 29).length) :
    (makeWPArr 29)[(5 : ℕ)] = 13456/13225 := by
  rw [← List.getD_eq_getElem (makeWPArr 29) (0 : ℚ) h]
  exact demo_wp5

set_option maxRecDepth 8192 in
theorem demo_walk3 : fitWalk expDemo (makeWPArr 29) [0, 10, 21, 0, 0]
    [1, 1, 1, 0, 0] [1, 1, 1, 0, 0] [0, 1, 4, 9, 16] 3 31 118 3 (-1) 2
    ((List.replicate 116 0).set 5 (1/18)) =
    Except.ok (4, (((List.replicate 116 0).set 5 (1/18)).set 3 (1/18))) := by
  rw [show (118 : ℕ) = 117 + 1 from rfl, fitWalk]
  have t3 : Int.toNat 3 = 3 := rfl
  have t4 : Int.toNat 4 = 4 := rfl
  norm_num [t3, t4, List.getD, demo_wp3g, demo_wp3e, demo_fit3,
    List.getElem?_set_self, List.getElem?_set_ne, List.getElem?_replicate_of_lt]

set_option maxRecDepth 8192 in
theorem demo_walk5 : fitWalk expDemo (makeWPArr 29) [0, 10, 21, 0, 0]
    [1, 1, 1, 0, 0] [1, 1, 1, 0, 0] [0, 1, 4, 9, 16] 3 31 119 5 1 1
    (List.replicate 116 0) =
    Except.ok (4, (((List.replicate 116 0).set 5 (1/18)).set 3 (1/18))) := by
  rw [show (119 : ℕ) = 118 + 1 from rfl, fitWalk]
  have t4 : Int.toNat 4 = 4 := rfl
  have t5 : Int.toNat 5 = 5 := rfl
  have hlen : (makeWPArr 29).length = 116 := by
    rw [makeWPArr, List.length_map, List.length_range, wpArrLen_eq]
  norm_num [t4, t5, hlen, List.getD, demo_wp5g, demo_wp5e, demo_fit5,
    List.getElem?_set_self, List.getElem?_set_ne, List.getElem?_replicate_of_lt,
    demo_walk3]

set_option maxRecDepth 8192 in
theorem demo_walk4 : fitWalk expDemo (makeWPArr 29) [0, 10, 21, 0, 0]
    [1, 1, 1, 0, 0] [1, 1, 1, 0, 0] [0, 1, 4, 9, 16] 3 31 120 4 1 0
    (List.replicate 116 0) =
    Except.ok (4, (((List.replicate 116 0).set 5 (1/18)).set 3 (1/18))) := by
  rw [show (120 : ℕ) = 119 + 1 from rfl, fitWalk]
  have t4 : Int.toNat 4 = 4 := rfl
  have hlen : (makeWPArr 29).length = 116 := by
    rw [makeWPArr, List.length_map, List.length_range, wpArrLen_eq]
  norm_num [t4, hlen, List.getD, demo_wp4g, demo_wp4e, demo_fit4,
    List.getElem?_set_self, List.getElem?_set_ne, List.getElem?_replicate_of_lt,
    demo_walk5]

set_option maxRecDepth 8192 in
theorem fitRadProfile_demo :
    fitRadProfile expDemo 29 [0, 10, 21, 0, 0] [1, 1, 1, 0, 0] 29 =
      Except.ok { ampl := 4096, fwhm := 29, bkgnd := 0, chiSq := 0 } := by
  rw [fitRadProfile]
  dsimp only
  rw [show (makeWPArr 29).length = 116 from by
    rw [makeWPArr, List.length_map, List.length_range, wpArrLen_eq]]
  have t3 : Int.toNat 3 = 3 := rfl
  have t4 : Int.toNat 4 = 4 := rfl
  have t5 : Int.toNat 5 = 5 := rfl
  norm_num [t3, t4, t5, wpIndFromFWHM, FWHMMax, FWHMDelta, pyTrunc, natListQ,
    wsum, listMulQ, radSq5, demo_walk4, List.getD, List.getElem?_set_self,
    List.getElem?_set_ne, List.getElem?_replicate_of_lt, wpFromFWHM,
    fwhmFromWPInd, DMax, demo_fit4, Int.floor_eq_iff]

/-- Witness for `starShape_offCenterCorrection`: a complete concrete
successful fit (FWHM 29 at a pixel-centered position, so the off-center
correction subtracts d^2/2 = 0 from (fps*29)^2). -/
theorem starShape_offCenterCorrection_witness :
    starShape expDemo 29 0 [0, 10, 21, 0, 0] [1, 1, 1, 0, 0] (3, 7) 3 (some 29) =
      Except.ok
        { ampl := 4096, bkgnd := 0, chiSq := 0,
          corrSigSq := ((29 : ℚ) * 29) ^ 2 - (1/2) * starOffSq 0 (3, 7) } :=
  (starShape_offCenterCorrection expDemo 29 0 [0, 10, 21, 0, 0] [1, 1, 1, 0, 0]
    (3, 7) 3 (some 29) { ampl := 4096, fwhm := 29, bkgnd := 0, chiSq := 0 }
    fitRadProfile_demo).2
    (by norm_num [starOffSq, ijPosFromXYPos, pyRound, Int.floor_eq_iff])

/-! ### C1: the Signal Gate -/

/-- A member of `s` that lies in `cells` survives one `growComp` expansion. -/
lemma mem_growComp_self (cells s : List (ℕ × ℕ)) (p : ℕ × ℕ)
    (hc : p ∈ cells) (hs : p ∈ s) : p ∈ growComp cells s := by
  rw [growComp, List.mem_filter]
  refine ⟨hc, ?_⟩
  rw [Bool.or_eq_true]
  exact Or.inl (List.elem_eq_true_of_mem hs)

/-- A cell of `cells` stays in every iterate of the component expansion. -/
lemma mem_iterList_self (cells : List (ℕ × ℕ)) (p : ℕ × ℕ) (hc : p ∈ cells)
    (k : ℕ) : ∀ s : List (ℕ × ℕ), p ∈ s → p ∈ iterList (growComp cells) k s := by
  induction k with
  | zero => intro s hs; simpa [iterList] using hs
  | succ k ih =>
      intro s hs
      rw [iterList]
      exact ih _ (mem_growComp_self cells s p hc hs)

/-- Every cell of `cells` belongs to its own labelled component. -/
lemma mem_compFrom_self (cells : List (ℕ × ℕ)) (p : ℕ × ℕ) (hc : p ∈ cells) :
    p ∈ compFrom cells p :=
  mem_iterList_self cells p hc _ _ (List.mem_singleton.mpr rfl)

/-- Members bound a right fold by `max`. -/
lemma le_foldr_max (a : ℕ) (l : List ℕ) (ha : a ∈ l) : a ≤ l.foldr max 0 := by
  induction l with
  | nil => cases ha
  | cons b bs ih =>
      rcases List.mem_cons.mp ha with h | h
      · subst h; exact le_max_left _ _
      · exact le_trans (ih h) (le_max_right _ _)

/-- A right fold by `min` is below its seed and below every member. -/
lemma foldr_min_le (x : ℕ) (l : List ℕ) :
    l.foldr min x ≤ x ∧ ∀ y ∈ l, l.foldr min x ≤ y := by
  induction l with
  | nil => exact ⟨le_refl x, by intro y hy; cases hy⟩
  | cons b bs ih =>
      refine ⟨le_trans (min_le_right _ _) ih.1, ?_⟩
      intro y hy
      rcases List.mem_cons.mp hy with h | h
      · subst h; exact min_le_left _ _
      · exact le_trans (min_le_right _ _) (ih.2 y h)

/-- The bounding box's upper row bound dominates every member's row. -/
lemma le_maxFst_of_mem (c : List (ℕ × ℕ)) (a : ℕ × ℕ) (ha : a ∈ c) :
    a.1 ≤ maxFst c :=
  le_foldr_max _ _ (List.mem_map.mpr ⟨a, ha, rfl⟩)

/-- The bounding box's lower row bound is below every member's row. -/
lemma minFst_le_of_mem (c : List (ℕ × ℕ)) (a : ℕ × ℕ) (ha : a ∈ c) :
    minFst c ≤ a.1 := by
  cases c with
  | nil => cases ha
  | cons b bs =>
      have hdef : minFst (b :: bs) = (bs.map Prod.fst).foldr min b.1 := rfl
      rw [hdef]
      rcases List.mem_cons.mp ha with h | h
      · subst h; exact (foldr_min_le _ _).1
      · exact (foldr_min_le _ _).2 _ (List.mem_map.mpr ⟨a, h, rfl⟩)

/-- The bounding box's upper column bound dominates every member's column. -/
lemma le_maxSnd_of_mem (c : List (ℕ × ℕ)) (a : ℕ × ℕ) (ha : a ∈ c) :
    a.2 ≤ maxSnd c :=
  le_foldr_max _ _ (List.mem_map.mpr ⟨a, ha, rfl⟩)

/-- The bounding box's lower column bound is below every member's column. -/
lemma minSnd_le_of_mem (c : List (ℕ × ℕ)) (a : ℕ × ℕ) (ha : a ∈ c) :
    minSnd c ≤ a.2 := by
  cases c with
  | nil => cases ha
  | cons b bs =>
      have hdef : minSnd (b :: bs) = (bs.map Prod.snd).foldr min b.2 := rfl
      rw [hdef]
      rcases List.mem_cons.mp ha with h | h
      · subst h; exact (foldr_min_le _ _).1
      · exact (foldr_min_le _ _).2 _ (List.mem_map.mpr ⟨a, h, rfl⟩)

/-- For a component that contains its seed cell, the source's per-axis test
`extent different from 1` is equivalent to the claim's `extent at least 2`,
because a nonempty component has extent at least 1 along each axis. -/
lemma compExtents_ne_one_iff (cells : List (ℕ × ℕ)) (p : ℕ × ℕ) (hc : p ∈ cells) :
    ((compExtents (compFrom cells p)).1 ≠ 1 ↔ 2 ≤ (compExtents (compFrom cells p)).1) ∧
    ((compExtents (compFrom cells p)).2 ≠ 1 ↔ 2 ≤ (compExtents (compFrom cells p)).2) := by
  have hp := mem_compFrom_self cells p hc
  have h1l := minFst_le_of_mem _ _ hp
  have h1u := le_maxFst_of_mem _ _ hp
  have h2l := minSnd_le_of_mem _ _ hp
  have h2u := le_maxSnd_of_mem _ _ hp
  rw [compExtents]
  exact ⟨⟨fun h => by omega, fun h => by omega⟩, ⟨fun h => by omega, fun h => by omega⟩⟩

/-- C1 as amended: the gate computes the cut level median + threshold*stddev
(threshold first clamped to the configured minimum), replaces every masked
or outside-circle pixel by the truncated median, median-filters 3x3, and
declares signal present exactly when some 8-connected component of pixels
whose smoothed value is STRICTLY ABOVE the cut has bounding-box extent
at least 2 along both axes (the source tests extent different from 1, which
for a component containing its seed pixel is the same thing); when no such
component exists it returns the CentroidData with isOK=false and message
"No signal", and the tail call `bc` into basicCentroid does not occur in
that branch. -/
theorem centroid_signalGate (m n : ℕ) (subData : ℕ → ℕ → ℤ)
    (subMask : ℕ → ℕ → Bool) (subCtr : ℚ × ℚ) (rad thresh0 minThresh med stdDev : ℚ)
    (bc : ImStats → CentroidData) :
    centroid m n subData subMask subCtr rad thresh0 minThresh med stdDev bc =
      (if hasSignal m n subData subMask subCtr rad (pyTrunc med)
          (med + max minThresh thresh0 * stdDev) then
        bc (gateImStats rad (max minThresh thresh0) med stdDev)
      else
        CentroidData.failed ("No signal") (some rad)
          (some (gateImStats rad (max minThresh thresh0) med stdDev))) ∧
    (CentroidData.failed ("No signal") (some rad)
      (some (gateImStats rad (max minThresh thresh0) med stdDev))).isOK = false ∧
    (CentroidData.failed ("No signal") (some rad)
      (some (gateImStats rad (max minThresh thresh0) med stdDev))).msgStr = "No signal" ∧
    (gateImStats rad (max minThresh thresh0) med stdDev).dataCut =
      some (med + max minThresh thresh0 * stdDev) ∧
    (hasSignal m n subData subMask subCtr rad (pyTrunc med)
        (med + max minThresh thresh0 * stdDev) = true ↔
      ∃ p ∈ aboveCells m n subData subMask subCtr rad (pyTrunc med)
          (med + max minThresh thresh0 * stdDev),
        2 ≤ (compExtents (compFrom (aboveCells m n subData subMask subCtr rad
          (pyTrunc med) (med + max minThresh thresh0 * stdDev)) p)).1 ∧
        2 ≤ (compExtents (compFrom (aboveCells m n subData subMask subCtr rad
          (pyTrunc med) (med + max minThresh thresh0 * stdDev)) p)).2) := by
  refine ⟨rfl, rfl, rfl, rfl, ?_⟩
  rw [hasSignal, List.any_eq_true]
  constructor
  · rintro ⟨p, hp, hc⟩
    have hiff := compExtents_ne_one_iff (aboveCells m n subData subMask subCtr rad
      (pyTrunc med) (med + max minThresh thresh0 * stdDev)) p hp
    have hc' : (compExtents (compFrom (aboveCells m n subData subMask subCtr rad
          (pyTrunc med) (med + max minThresh thresh0 * stdDev)) p)).1 ≠ 1 ∧
        (compExtents (compFrom (aboveCells m n subData subMask subCtr rad
          (pyTrunc med) (med + max minThresh thresh0 * stdDev)) p)).2 ≠ 1 := by
      simpa using hc
    exact ⟨p, hp, hiff.1.mp hc'.1, hiff.2.mp hc'.2⟩
  · rintro ⟨p, hp, h1, h2⟩
    have hiff := compExtents_ne_one_iff (aboveCells m n subData subMask subCtr rad
      (pyTrunc med) (med + max minThresh thresh0 * stdDev)) p hp
    refine ⟨p, hp, ?_⟩
    simpa using ⟨hiff.1.mpr h1, hiff.2.mpr h2⟩

/-- A throwaway CentroidData used as the image of the abstract basicCentroid
continuation in concrete gate runs. -/
def dummyCD : CentroidData := CentroidData.failed "" none none

/-- C1 counterexample: a flat 2x2 subframe whose every pixel equals the cut
level exactly (median 7, stddev 0, so dataCut = 7).  The source's strict
test `smoothedData > dataCut` finds nothing and the gate returns the
"No signal" CentroidData, yet the claim's at-or-above reading finds one
big component of inner pixels of extent 2 along both axes, i.e. claims
signal present — so the claimed iff is false on this input. -/
theorem centroid_gate_counterexample :
    centroid 2 2 (fun _ _ => 7) (fun _ _ => false) (1/2, 1/2) 1 3 2 7 0
      (fun _ => dummyCD) =
      CentroidData.failed ("No signal") (some 1) (some (gateImStats 1 3 7 0)) ∧
    claimSignalGE 2 2 (fun _ _ => 7) (fun _ _ => false) (1/2, 1/2) 1 7 7 = true := by
  have hfill : ∀ i j, filledPix (fun _ _ => 7) (fun _ _ => false) (1/2, 1/2) 1 7 i j = 7 := by
    intro i j
    rw [filledPix]
    split <;> rfl
  have hsm : ∀ i j, smoothedPix 2 2 (fun _ _ => 7) (fun _ _ => false)
      (1/2, 1/2) 1 7 i j = 7 := by
    intro i j
    rw [smoothedPix, neighborhood3]
    simp only [hfill]
    rfl
  have hgrid : gridCells 2 2 = [(0,0), (0,1), (1,0), (1,1)] := rfl
  constructor
  · have htr : pyTrunc 7 = 7 := by norm_num [pyTrunc]
    have hcells : aboveCells 2 2 (fun _ _ => 7) (fun _ _ => false) (1/2, 1/2) 1
        (pyTrunc 7) (7 + max 2 3 * 0) = [] := by
      rw [aboveCells, hgrid, htr]
      norm_num [hsm]
    have hsig : hasSignal 2 2 (fun _ _ => 7) (fun _ _ => false) (1/2, 1/2) 1
        (pyTrunc 7) (7 + max 2 3 * 0) = false := by
      rw [hasSignal, hcells]
      rfl
    rw [centroid]
    rw [hsig]
    norm_num [gateImStats]
  · have hcells : (gridCells 2 2).filter (fun c =>
        inCircle (1/2, 1/2) 1 c.1 c.2 &&
        decide ((7:ℚ) ≤ ((smoothedPix 2 2 (fun _ _ => 7) (fun _ _ => false)
          (1/2, 1/2) 1 7 c.1 c.2 : ℤ) : ℚ))) = [(0,0), (0,1), (1,0), (1,1)] := by
      rw [hgrid]
      norm_num [hsm, inCircle, List.filter_cons]
    rw [claimSignalGE]
    dsimp only
    rw [hcells]
    decide

end PyGuide
